import Mathlib

/-!
Verification of the pacs workflow core (crates/pacs-workflow) against its
specification.  The Rust sources are shallowly embedded: `HashMap`s become
association lists (claims never depend on hash-iteration order except where
noted), `Uuid` becomes `Nat`, `chrono::DateTime<Utc>` becomes `Int`
(milliseconds since the epoch, which chrono orders totally), Rust `i32`/`i64`
become `Int` (clamping and division behaviour is modelled explicitly at the
points where it matters), and `f64` ratios become `ℚ`.  Fallible Rust
functions returning `Result<T>` become `Except PacsError T`.  Calls to
`Uuid::new_v4()` and `chrono::Utc::now()` are modelled by explicit fresh-id
and clock parameters threaded through the embedded functions.
-/

deriving instance DecidableEq for Except

namespace Pacs

/-- Model of `uuid::Uuid` (only identity/equality of ids matters). -/
abbrev Uuid := Nat

/-- Model of `chrono::DateTime<Utc>`: milliseconds since the epoch. -/
abbrev Time := Int

/-- Lookup in an association list, modelling `HashMap::get`. -/
def lookupId {α : Type} (k : Uuid) : List (Uuid × α) → Option α
  | [] => none
  | (k', v) :: rest => if k' = k then some v else lookupId k rest

/-- Insert into an association list, modelling `HashMap::insert`
(replaces an existing binding, otherwise appends). -/
def insertId {α : Type} (k : Uuid) (v : α) : List (Uuid × α) → List (Uuid × α)
  | [] => [(k, v)]
  | (k', v') :: rest =>
      if k' = k then (k, v) :: rest else (k', v') :: insertId k v rest

/-- Update the binding of `k` in place when present, modelling
`HashMap::get_mut` followed by a mutation; absent keys are left alone. -/
def adjustId {α : Type} (k : Uuid) (f : α → α) : List (Uuid × α) → List (Uuid × α)
  | [] => []
  | (k', v) :: rest =>
      if k' = k then (k', f v) :: rest else (k', v) :: adjustId k f rest

/- ----------------------------------------------------------------
pacs-core/src/error.rs — the error constructors the workflow crate uses.
---------------------------------------------------------------- -/

/-- Model of `PacsError` (pacs-core/src/error.rs); only the constructors
reachable from the workflow crate are embedded. -/
inductive PacsError : Type
  | NotFound : String → PacsError
  | RoutingError : String → PacsError
  | InvalidStateTransition : String → String → PacsError
  deriving DecidableEq, Repr

/- ----------------------------------------------------------------
pacs-core/src/models.rs — StudyStatus and Study.
---------------------------------------------------------------- -/

/-- Model of `StudyStatus` (pacs-core/src/models.rs:45). -/
inductive StudyStatus : Type
  | Scheduled | InProgress | Completed | Preliminary | Final | Canceled
  deriving DecidableEq, Repr

/-- Rust `format!("{:?}", status)`. -/
def StudyStatus.debugStr : StudyStatus → String
  | .Scheduled => "Scheduled"
  | .InProgress => "InProgress"
  | .Completed => "Completed"
  | .Preliminary => "Preliminary"
  | .Final => "Final"
  | .Canceled => "Canceled"

/-- Model of `Study` (pacs-core/src/models.rs:29).  Date/time fields are
embedded as integers; their values are irrelevant to the workflow logic. -/
structure Study : Type where
  id : Uuid
  study_uid : String
  patient_id : Uuid
  accession_number : String
  study_date : Int
  study_time : Option Int
  modality : String
  description : Option String
  status : StudyStatus
  created_at : Time
  updated_at : Time
  deriving DecidableEq, Repr

/- ----------------------------------------------------------------
pacs-workflow/src/state_machine.rs
---------------------------------------------------------------- -/

/-- Model of `StudyEvent` (state_machine.rs:12). -/
inductive StudyEvent : Type
  | Scheduled | Started | Completed | PreliminaryReport | FinalReport | Canceled
  deriving DecidableEq, Repr

/-- Rust `format!("{:?}", event)`. -/
def StudyEvent.debugStr : StudyEvent → String
  | .Scheduled => "Scheduled"
  | .Started => "Started"
  | .Completed => "Completed"
  | .PreliminaryReport => "PreliminaryReport"
  | .FinalReport => "FinalReport"
  | .Canceled => "Canceled"

namespace StudyStateMachine

/-- The transition table built by `StudyStateMachine::new`
(state_machine.rs:37-49); the six `HashMap::insert` calls, with distinct
keys, are embedded as an association list. -/
def transitions : List ((StudyStatus × StudyEvent) × StudyStatus) :=
  [ ((.Scheduled, .Started), .InProgress)
  , ((.InProgress, .Completed), .Completed)
  , ((.Completed, .PreliminaryReport), .Preliminary)
  , ((.Preliminary, .FinalReport), .Final)
  , ((.Scheduled, .Canceled), .Canceled)
  , ((.InProgress, .Canceled), .Canceled) ]

/-- `HashMap::get` on the transition table. -/
def lookupTransition (from_ : StudyStatus) (event : StudyEvent) :
    Option StudyStatus :=
  (transitions.find? (fun e => e.fst = (from_, event))).map (·.snd)

/-- Model of `StudyStateMachine::can_transition` (state_machine.rs:52). -/
def can_transition (from_ : StudyStatus) (event : StudyEvent) : Bool :=
  (lookupTransition from_ event).isSome

/-- Model of `StudyStateMachine::transition` (state_machine.rs:57-65). -/
def transition (from_ : StudyStatus) (event : StudyEvent) :
    Except PacsError StudyStatus :=
  match lookupTransition from_ event with
  | some t => .ok t
  | none => .error (.InvalidStateTransition from_.debugStr event.debugStr)

end StudyStateMachine

/-- Spec-side description of the transition function, written from the
specification's tabulated entries: the six table rows return their target
state and every other pair fails with InvalidTransition. -/
def specTransition (from_ : StudyStatus) (event : StudyEvent) :
    Except PacsError StudyStatus :=
  match from_, event with
  | .Scheduled, .Started => .ok .InProgress
  | .InProgress, .Completed => .ok .Completed
  | .Completed, .PreliminaryReport => .ok .Preliminary
  | .Preliminary, .FinalReport => .ok .Final
  | .Scheduled, .Canceled => .ok .Canceled
  | .InProgress, .Canceled => .ok .Canceled
  | _, _ => .error (.InvalidStateTransition from_.debugStr event.debugStr)

/- ----------------------------------------------------------------
pacs-workflow/src/routing.rs
---------------------------------------------------------------- -/

/-- Model of `RadiologistSpecialty` (routing.rs:12). -/
inductive RadiologistSpecialty : Type
  | General | Neuroradiology | Musculoskeletal | Cardiac
  | Abdominal | Chest | Pediatric | Breast
  deriving DecidableEq, Repr

/-- Rust `format!("{:?}", specialty)`. -/
def RadiologistSpecialty.debugStr : RadiologistSpecialty → String
  | .General => "General"
  | .Neuroradiology => "Neuroradiology"
  | .Musculoskeletal => "Musculoskeletal"
  | .Cardiac => "Cardiac"
  | .Abdominal => "Abdominal"
  | .Chest => "Chest"
  | .Pediatric => "Pediatric"
  | .Breast => "Breast"

/-- Model of `Radiologist` (routing.rs:25). -/
structure Radiologist : Type where
  id : Uuid
  name : String
  specialties : List RadiologistSpecialty
  max_workload : Int
  is_available : Bool
  deriving DecidableEq, Repr

/-- Model of `RuleCondition` (routing.rs:46). -/
inductive RuleCondition : Type
  | ModalityEquals : String → RuleCondition
  | ModalityIn : List String → RuleCondition
  | DescriptionContains : String → RuleCondition
  | TimeRange : String → String → RuleCondition
  | Emergency : RuleCondition
  | Routine : RuleCondition
  deriving DecidableEq, Repr

/-- Model of `RuleAction` (routing.rs:57). -/
inductive RuleAction : Type
  | AssignToRadiologist : Uuid → RuleAction
  | AssignToSpecialty : RadiologistSpecialty → RuleAction
  | QueueInPool : String → RuleAction
  | NotifyAdmin : RuleAction
  deriving DecidableEq, Repr

/-- Model of `RoutingRule` (routing.rs:35). -/
structure RoutingRule : Type where
  id : Uuid
  name : String
  priority : Int
  conditions : List RuleCondition
  action : RuleAction
  is_active : Bool
  deriving DecidableEq, Repr

/-- Model of `RoutingPriority` (routing.rs:73). -/
inductive RoutingPriority : Type
  | Emergency | Urgent | Routine | Low
  deriving DecidableEq, Repr

/-- Model of `RoutingRequest` (routing.rs:66). -/
structure RoutingRequest : Type where
  study : Study
  priority : RoutingPriority
  deriving DecidableEq, Repr

/-- Model of `RoutingResult` (routing.rs:82). -/
structure RoutingResult : Type where
  study_id : Uuid
  assigned_to : Option Uuid
  queue_name : Option String
  priority : RoutingPriority
  rule_applied : Option Uuid
  reason : String
  deriving DecidableEq, Repr

/-- Rust `str::to_lowercase` (ASCII suffices for the embedded logic). -/
def lowerStr (s : String) : String := ⟨s.data.map Char.toLower⟩

/-- `charsLeadWith n h` holds when `n` is an initial segment of `h`. -/
def charsLeadWith : List Char → List Char → Bool
  | [], _ => true
  | _ :: _, [] => false
  | a :: as, b :: bs => a == b && charsLeadWith as bs

/-- `charsContain n h` holds when `n` occurs contiguously inside `h`. -/
def charsContain (needle : List Char) : List Char → Bool
  | [] => charsLeadWith needle []
  | c :: cs => charsLeadWith needle (c :: cs) || charsContain needle cs

/-- Rust `str::contains(needle)` on the character sequences. -/
def strContains (hay needle : String) : Bool := charsContain needle.data hay.data

/-- A stable insertion step: place `x` before the first element that does not
compare strictly below it. -/
def insertSorted {α : Type} (cmp : α → α → Ordering) (x : α) :
    List α → List α
  | [] => [x]
  | y :: ys =>
      if cmp x y = .gt then y :: insertSorted cmp x ys else x :: y :: ys

/-- Stable sort by a comparator, modelling Rust's (stable) `slice::sort_by`. -/
def sortByStable {α : Type} (cmp : α → α → Ordering) (l : List α) : List α :=
  l.foldr (insertSorted cmp) []

/-- Model of the `RoutingEngine` state (routing.rs:93): the rule vector and
the radiologist/workload `HashMap`s as association lists. -/
structure RoutingEngine : Type where
  rules : List RoutingRule
  radiologists : List (Uuid × Radiologist)
  workload_map : List (Uuid × Int)
  deriving DecidableEq, Repr

namespace RoutingEngine

/-- Model of `RoutingEngine::new` (routing.rs:101). -/
def new : RoutingEngine := { rules := [], radiologists := [], workload_map := [] }

/-- The comparator `|a, b| b.priority.cmp(&a.priority)` of `add_rule`. -/
def ruleCmp (a b : RoutingRule) : Ordering := compare b.priority a.priority

/-- Model of `RoutingEngine::add_rule` (routing.rs:110-114): push then
stable-sort by descending rule priority. -/
def add_rule (e : RoutingEngine) (rule : RoutingRule) : RoutingEngine :=
  { e with rules := sortByStable ruleCmp (e.rules ++ [rule]) }

/-- Model of `RoutingEngine::add_radiologist` (routing.rs:117-120). -/
def add_radiologist (e : RoutingEngine) (radiologist : Radiologist) :
    RoutingEngine :=
  { e with
    workload_map := insertId radiologist.id 0 e.workload_map
    radiologists := insertId radiologist.id radiologist e.radiologists }

/-- Model of `RoutingEngine::update_workload` (routing.rs:123-130): add the
delta to an existing entry and clamp at zero; ids absent from the map are
left untouched. -/
def update_workload (e : RoutingEngine) (radiologist_id : Uuid) (delta : Int) :
    RoutingEngine :=
  { e with
    workload_map :=
      adjustId radiologist_id
        (fun w => let w' := w + delta; if w' < 0 then 0 else w')
        e.workload_map }

/-- Model of `RoutingEngine::get_workload` (routing.rs:133). -/
def get_workload (e : RoutingEngine) (radiologist_id : Uuid) : Int :=
  (lookupId radiologist_id e.workload_map).getD 0

/-- Model of `RoutingEngine::evaluate_condition` (routing.rs:167-183). -/
def evaluate_condition (condition : RuleCondition) (study : Study)
    (priority : RoutingPriority) : Bool :=
  match condition with
  | .ModalityEquals modality => study.modality == modality
  | .ModalityIn modalities => modalities.contains study.modality
  | .DescriptionContains keyword =>
      match study.description with
      | some desc => strContains (lowerStr desc) (lowerStr keyword)
      | none => false
  | .Emergency => match priority with | .Emergency => true | _ => false
  | .Routine => match priority with | .Routine => true | _ => false
  | .TimeRange _ _ => true

/-- Model of `RoutingEngine::evaluate_conditions` (routing.rs:157-164). -/
def evaluate_conditions (conditions : List RuleCondition) (study : Study)
    (priority : RoutingPriority) : Bool :=
  conditions.all (fun c => evaluate_condition c study priority)

/-- Model of `RoutingEngine::find_best_radiologist_for_specialty`
(routing.rs:241-251).  Rust's `Iterator::min_by_key` returns the *last*
minimal element, modelled by the `≤`-replacing fold. -/
def find_best_radiologist_for_specialty (e : RoutingEngine)
    (specialty : RadiologistSpecialty) : Option Uuid :=
  let eligible := e.radiologists.filter (fun p =>
    p.snd.is_available && p.snd.specialties.contains specialty &&
      decide (get_workload e p.snd.id < p.snd.max_workload))
  (eligible.foldl (fun best p =>
    match best with
    | none => some p
    | some q =>
        if get_workload e p.snd.id ≤ get_workload e q.snd.id then some p
        else some q) none).map (·.fst)

/-- Model of `RoutingEngine::apply_action` (routing.rs:186-238). -/
def apply_action (e : RoutingEngine) (rule : RoutingRule)
    (request : RoutingRequest) : Except PacsError RoutingResult :=
  match rule.action with
  | .AssignToRadiologist radiologist_id =>
      match lookupId radiologist_id e.radiologists with
      | some radiologist =>
          if radiologist.is_available then
            .ok { study_id := request.study.id
                  assigned_to := some radiologist_id
                  queue_name := none
                  priority := request.priority
                  rule_applied := some rule.id
                  reason := "Assigned to radiologist " ++ radiologist.name ++
                    " by rule " ++ rule.name }
          else .error (.RoutingError "Radiologist is not available")
      | none => .error (.RoutingError "Radiologist not found")
  | .AssignToSpecialty specialty =>
      let best_radiologist := find_best_radiologist_for_specialty e specialty
      .ok { study_id := request.study.id
            assigned_to := best_radiologist
            queue_name := none
            priority := request.priority
            rule_applied := some rule.id
            reason := "Assigned to specialty " ++ specialty.debugStr ++
              " by rule " ++ rule.name }
  | .QueueInPool queue_name =>
      .ok { study_id := request.study.id
            assigned_to := none
            queue_name := some queue_name
            priority := request.priority
            rule_applied := some rule.id
            reason := "Queued in " ++ queue_name ++ " by rule " ++ rule.name }
  | .NotifyAdmin =>
      .ok { study_id := request.study.id
            assigned_to := none
            queue_name := some "admin_review"
            priority := request.priority
            rule_applied := some rule.id
            reason := "Admin notification by rule " ++ rule.name }

/-- Model of `RoutingEngine::default_routing` (routing.rs:254-266). -/
def default_routing (e : RoutingEngine) (request : RoutingRequest) :
    Except PacsError RoutingResult :=
  let best_general_radiologist :=
    find_best_radiologist_for_specialty e .General
  .ok { study_id := request.study.id
        assigned_to := best_general_radiologist
        queue_name :=
          if best_general_radiologist.isNone then some "general_pool" else none
        priority := request.priority
        rule_applied := none
        reason := "Default routing applied" }

/-- Model of `RoutingEngine::route_study` (routing.rs:138-154): first active
rule whose conditions all hold is applied, else default routing. -/
def route_study (e : RoutingEngine) (request : RoutingRequest) :
    Except PacsError RoutingResult :=
  match e.rules.find? (fun rule =>
      rule.is_active &&
        evaluate_conditions rule.conditions request.study request.priority) with
  | some rule => apply_action e rule request
  | none => default_routing e request

/-- Model of `RoutingEngine::get_available_radiologists` (routing.rs:269). -/
def get_available_radiologists (e : RoutingEngine) : List Radiologist :=
  (e.radiologists.map (·.snd)).filter (·.is_available)

end RoutingEngine

/- ----------------------------------------------------------------
pacs-workflow/src/worklist.rs
---------------------------------------------------------------- -/

/-- Model of `WorkItemStatus` (worklist.rs:26). -/
inductive WorkItemStatus : Type
  | Pending | InProgress | Completed | Rejected | OnHold
  deriving DecidableEq, Repr

/-- Model of `WorkItemPriority` (worklist.rs:36). -/
inductive WorkItemPriority : Type
  | Critical | High | Normal | Low
  deriving DecidableEq, Repr

/-- The discriminant Rust's `#[derive(PartialOrd, Ord)]` compares: variants
in declaration order, so `Critical` is the *smallest* (worklist.rs:35-41). -/
def WorkItemPriority.discr : WorkItemPriority → Nat
  | .Critical => 0
  | .High => 1
  | .Normal => 2
  | .Low => 3

/-- Rust `WorkItemPriority::cmp` as derived by `#[derive(Ord)]`. -/
def WorkItemPriority.cmpDerived (a b : WorkItemPriority) : Ordering :=
  compare a.discr b.discr

/-- Model of `WorkItem` (worklist.rs:12). -/
structure WorkItem : Type where
  id : Uuid
  study_id : Uuid
  radiologist_id : Option Uuid
  status : WorkItemStatus
  priority : WorkItemPriority
  assigned_at : Time
  due_at : Option Time
  estimated_duration_minutes : Int
  tags : List String
  deriving DecidableEq, Repr

/-- Model of `WorkListFilter` (worklist.rs:45); dates as integers. -/
structure WorkListFilter : Type where
  radiologist_id : Option Uuid
  status : Option (List WorkItemStatus)
  priority : Option (List WorkItemPriority)
  modality : Option (List String)
  date_from : Option Int
  date_to : Option Int
  tags : Option (List String)
  limit : Option Int
  offset : Option Int
  deriving DecidableEq, Repr

/-- Model of `WorkListFilter::default` (worklist.rs:57-71). -/
def WorkListFilter.default : WorkListFilter :=
  { radiologist_id := none, status := none, priority := none,
    modality := none, date_from := none, date_to := none, tags := none,
    limit := some 50, offset := some 0 }

/-- Model of `WorkListStats` (worklist.rs:86); the `f64` mean becomes `ℚ`
and the priority-count `HashMap` a total function (reads default to 0,
matching `entry(..).or_insert(0)`). -/
structure WorkListStats : Type where
  total_items : Int
  pending_items : Int
  in_progress_items : Int
  completed_items : Int
  overdue_items : Int
  average_processing_time_minutes : ℚ
  workload_by_priority : WorkItemPriority → Int

attribute [ext] WorkListStats

/-- Model of the `WorkListManager` state (worklist.rs:98). -/
structure WorkListManager : Type where
  work_items : List (Uuid × WorkItem)
  radiologist_worklists : List (Uuid × List Uuid)
  study_work_items : List (Uuid × List Uuid)
  deriving DecidableEq, Repr

/-- `HashMap::entry(k).or_insert_with(Vec::new).push(v)`. -/
def pushEntry {α : Type} (k : Uuid) (v : α) (l : List (Uuid × List α)) :
    List (Uuid × List α) :=
  match lookupId k l with
  | some _ => adjustId k (fun vs => vs ++ [v]) l
  | none => l ++ [(k, [v])]

namespace WorkListManager

/-- Model of `WorkListManager::new` (worklist.rs:106). -/
def new : WorkListManager :=
  { work_items := [], radiologist_worklists := [], study_work_items := [] }

/-- Model of `WorkListManager::create_work_item` (worklist.rs:115-157);
`Uuid::new_v4()` and `Utc::now()` become the `freshId`/`now` parameters. -/
def create_work_item (m : WorkListManager) (study_id : Uuid)
    (radiologist_id : Option Uuid) (priority : WorkItemPriority)
    (estimated_duration_minutes : Int) (tags : List String)
    (due_at : Option Time) (freshId : Uuid) (now : Time) :
    Except PacsError (WorkItem × WorkListManager) :=
  let work_item : WorkItem :=
    { id := freshId, study_id := study_id, radiologist_id := radiologist_id
      status := .Pending, priority := priority, assigned_at := now
      due_at := due_at
      estimated_duration_minutes := estimated_duration_minutes, tags := tags }
  let m1 := { m with work_items := insertId freshId work_item m.work_items }
  let m2 :=
    match radiologist_id with
    | some rid =>
        { m1 with
          radiologist_worklists := pushEntry rid freshId m1.radiologist_worklists }
    | none => m1
  let m3 :=
    { m2 with
      study_work_items := pushEntry study_id freshId m2.study_work_items }
  .ok (work_item, m3)

/-- Model of `WorkListManager::get_work_item` (worklist.rs:160). -/
def get_work_item (m : WorkListManager) (work_item_id : Uuid) :
    Option WorkItem :=
  lookupId work_item_id m.work_items

/-- Model of `WorkListManager::update_work_item_status`
(worklist.rs:165-186). -/
def update_work_item_status (m : WorkListManager) (work_item_id : Uuid)
    (status : WorkItemStatus) : Except PacsError WorkListManager :=
  match lookupId work_item_id m.work_items with
  | some work_item =>
      let m1 :=
        { m with
          work_items :=
            adjustId work_item_id (fun wi => { wi with status := status })
              m.work_items }
      let m2 :=
        if status = .Completed ∨ status = .Rejected then
          match work_item.radiologist_id with
          | some rid =>
              { m1 with
                radiologist_worklists :=
                  adjustId rid (fun ws => ws.filter (fun i => i ≠ work_item_id))
                    m1.radiologist_worklists }
          | none => m1
        else m1
      .ok m2
  | none =>
      .error (.NotFound ("Work item " ++ toString work_item_id ++ " not found"))

/-- The comparator of `query_worklist`'s `sort_by` (worklist.rs:235-240):
`b.priority.cmp(&a.priority)`, ties by `a.assigned_at.cmp(&b.assigned_at)`. -/
def itemCmp (a b : WorkItem) : Ordering :=
  match WorkItemPriority.cmpDerived b.priority a.priority with
  | .eq => compare a.assigned_at b.assigned_at
  | ord => ord

/-- Rust `i32 as usize` on a 64-bit target (two's-complement reinterpretation),
used on the filter's offset/limit. -/
def intToUsize (i : Int) : Nat := (i.emod (2 ^ 64)).toNat

/-- Model of `WorkListManager::query_worklist` (worklist.rs:218-251). -/
def query_worklist (m : WorkListManager) (filter : WorkListFilter) :
    Except PacsError (List WorkItem) :=
  let items := m.work_items.map (·.snd)
  let items :=
    match filter.radiologist_id with
    | some rid => items.filter (fun item => item.radiologist_id == some rid)
    | none => items
  let items :=
    match filter.status with
    | some statuses => items.filter (fun item => statuses.contains item.status)
    | none => items
  let items :=
    match filter.priority with
    | some priorities => items.filter (fun item => priorities.contains item.priority)
    | none => items
  let items := sortByStable itemCmp items
  let offset := intToUsize (filter.offset.getD 0)
  let limit := intToUsize (filter.limit.getD 50)
  let total_items := items.length
  let start := min offset total_items
  let stop := min (start + limit) total_items
  .ok ((items.drop start).take (stop - start))

/-- Model of `WorkListManager::get_radiologist_worklist` (worklist.rs:254). -/
def get_radiologist_worklist (m : WorkListManager) (radiologist_id : Uuid) :
    Except PacsError (List WorkItem) :=
  query_worklist m { WorkListFilter.default with radiologist_id := some radiologist_id }

/-- The running accumulator of the stats loop in `get_worklist_stats`:
the stats so far and the completed items collected so far. -/
def statsStep (now : Time) (acc : WorkListStats × List WorkItem)
    (item : WorkItem) : WorkListStats × List WorkItem :=
  let stats := acc.fst
  let completed := acc.snd
  let statusAcc :=
    match item.status with
    | .Pending =>
        ({ stats with pending_items := stats.pending_items + 1 }, completed)
    | .InProgress =>
        ({ stats with in_progress_items := stats.in_progress_items + 1 },
         completed)
    | .Completed =>
        ({ stats with completed_items := stats.completed_items + 1 },
         completed ++ [item])
    | _ => (stats, completed)
  let stats1 := statusAcc.fst
  let stats2 :=
    match item.due_at with
    | some due_at =>
        if now > due_at ∧ item.status ≠ .Completed then
          { stats1 with overdue_items := stats1.overdue_items + 1 }
        else stats1
    | none => stats1
  let stats3 :=
    { stats2 with workload_by_priority := fun p =>
        if p = item.priority then stats2.workload_by_priority p + 1
        else stats2.workload_by_priority p }
  (stats3, statusAcc.snd)

/-- The filter `get_worklist_stats` builds: the default filter (notably
`limit: Some(50)`) restricted to the given reviewer. -/
def statsFilter (radiologist_id : Option Uuid) : WorkListFilter :=
  { WorkListFilter.default with radiologist_id := radiologist_id }

/-- Model of `WorkListManager::get_worklist_stats` (worklist.rs:271-330):
stats are computed over the result of `query_worklist` under the *default*
filter (with its `limit: Some(50)`), with the given reviewer filter. -/
def get_worklist_stats (m : WorkListManager) (radiologist_id : Option Uuid)
    (now : Time) : WorkListStats :=
  let filter := statsFilter radiologist_id
  let items :=
    match query_worklist m filter with
    | .ok items => items
    | .error _ => []
  let init : WorkListStats :=
    { total_items := items.length, pending_items := 0, in_progress_items := 0
      completed_items := 0, overdue_items := 0
      average_processing_time_minutes := 0
      workload_by_priority := fun _ => 0 }
  let acc := items.foldl (statsStep now) (init, [])
  let stats := acc.fst
  let completed_items := acc.snd
  if completed_items.isEmpty then stats
  else
    { stats with average_processing_time_minutes :=
        (((completed_items.map (·.estimated_duration_minutes)).sum : Int) : ℚ) /
          (completed_items.length : ℚ) }

/-- Model of `WorkListManager::remove_work_item` (worklist.rs:333-352). -/
def remove_work_item (m : WorkListManager) (work_item_id : Uuid) :
    Except PacsError WorkListManager :=
  match lookupId work_item_id m.work_items with
  | some work_item =>
      let m1 :=
        { m with
          work_items := m.work_items.filter (fun kv => kv.fst ≠ work_item_id) }
      let m2 :=
        match work_item.radiologist_id with
        | some rid =>
            { m1 with
              radiologist_worklists :=
                adjustId rid (fun ws => ws.filter (fun i => i ≠ work_item_id))
                  m1.radiologist_worklists }
        | none => m1
      let m3 :=
        { m2 with
          study_work_items :=
            adjustId work_item.study_id
              (fun ws => ws.filter (fun i => i ≠ work_item_id))
              m2.study_work_items }
      .ok m3
  | none =>
      .error (.NotFound ("Work item " ++ toString work_item_id ++ " not found"))

/-- Model of `WorkListManager::get_study_work_items` (worklist.rs:263-268). -/
def get_study_work_items (m : WorkListManager) (study_id : Uuid) :
    List WorkItem :=
  match lookupId study_id m.study_work_items with
  | some ids => ids.filterMap (fun i => lookupId i m.work_items)
  | none => []

/-- Model of `WorkListManager::get_all_active_work_items`
(worklist.rs:355-360). -/
def get_all_active_work_items (m : WorkListManager) : List WorkItem :=
  (m.work_items.map (·.snd)).filter (fun item =>
    match item.status with
    | .Pending | .InProgress => true
    | _ => false)

end WorkListManager

/- ----------------------------------------------------------------
pacs-workflow/src/critical_value.rs
---------------------------------------------------------------- -/

/-- Model of `CriticalValueType` (critical_value.rs:12). -/
inductive CriticalValueType : Type
  | LifeThreatening | Emergency | Urgent | Critical
  deriving DecidableEq, Repr

/-- Model of `CriticalSeverity` (critical_value.rs:35). -/
inductive CriticalSeverity : Type
  | Low | Medium | High | Critical
  deriving DecidableEq, Repr

/-- Model of `NotificationMethod` (critical_value.rs:44). -/
inductive NotificationMethod : Type
  | InApp | Email | SMS | PhoneCall | Pager
  deriving DecidableEq, Repr

/-- Model of `NotificationStatus` (critical_value.rs:67). -/
inductive NotificationStatus : Type
  | Pending | Sent | Delivered | Read | Acknowledged | Failed
  deriving DecidableEq, Repr

/-- Model of `CriticalValueEvent` (critical_value.rs:21). -/
structure CriticalValueEvent : Type where
  id : Uuid
  study_id : Uuid
  patient_id : Uuid
  value_type : CriticalValueType
  description : String
  detected_at : Time
  detected_by : Uuid
  severity : CriticalSeverity
  clinical_context : Option String
  deriving DecidableEq, Repr

/-- Model of `NotificationRecord` (critical_value.rs:54). -/
structure NotificationRecord : Type where
  id : Uuid
  event_id : Uuid
  recipient_id : Uuid
  method : NotificationMethod
  sent_at : Time
  status : NotificationStatus
  retry_count : Int
  error_message : Option String
  deriving DecidableEq, Repr

/-- Model of `RecipientType` (critical_value.rs:125). -/
inductive RecipientType : Type
  | ReferringPhysician | PrimaryRadiologist | DepartmentHead
  | EmergencyRoom | BackupRadiologist | SystemAdmin
  | SpecificUser : Uuid → RecipientType
  deriving DecidableEq, Repr

/-- Model of `NotificationRule` (critical_value.rs:89). -/
structure NotificationRule : Type where
  recipient_type : RecipientType
  recipient_id : Option Uuid
  methods : List NotificationMethod
  delay_minutes : Int
  require_acknowledgment : Bool
  deriving DecidableEq, Repr

/-- Model of `EscalationCondition` (critical_value.rs:107). -/
inductive EscalationCondition : Type
  | NotAcknowledged | NotDelivered | NoResponse | RecipientUnavailable
  deriving DecidableEq, Repr

/-- Model of `EscalationAction` (critical_value.rs:116). -/
inductive EscalationAction : Type
  | NotifyBackupRecipient | IncreaseSeverity | AddNotificationMethod | NotifyAdmin
  deriving DecidableEq, Repr

/-- Model of `EscalationRule` (critical_value.rs:99). -/
structure EscalationRule : Type where
  condition : EscalationCondition
  action : EscalationAction
  trigger_after_minutes : Int
  deriving DecidableEq, Repr

/-- Model of `CriticalValuePolicy` (critical_value.rs:78). -/
structure CriticalValuePolicy : Type where
  id : Uuid
  name : String
  value_types : List CriticalValueType
  notification_rules : List NotificationRule
  escalation_rules : List EscalationRule
  is_active : Bool
  deriving DecidableEq, Repr

/-- Model of the `CriticalValueProcessor` state (critical_value.rs:137). -/
structure CriticalValueProcessor : Type where
  events : List (Uuid × CriticalValueEvent)
  notifications : List (Uuid × List NotificationRecord)
  policies : List CriticalValuePolicy
  notification_queue : List NotificationRecord
  deriving DecidableEq, Repr

/-- The injected notification sender (`send_notification`'s observable
outcome): `none` models `Ok(())`, `some msg` a failure whose display string
is `msg`.  The source's `send_notification` itself always returns `Ok`. -/
abbrev Sender := NotificationRecord → Option String

namespace CriticalValueProcessor

/-- Model of `CriticalValueProcessor::new` (critical_value.rs:146). -/
def new : CriticalValueProcessor :=
  { events := [], notifications := [], policies := [], notification_queue := [] }

/-- Model of `CriticalValueProcessor::add_policy` (critical_value.rs:156). -/
def add_policy (s : CriticalValueProcessor) (policy : CriticalValuePolicy) :
    CriticalValueProcessor :=
  { s with policies := s.policies ++ [policy] }

/-- The body of `create_notification`'s per-method loop
(critical_value.rs:229-247): build a Pending record with a fresh id, push it
into the per-event map and onto the send queue. -/
def notifyStep (event : CriticalValueEvent) (uid : Uuid) (now : Time)
    (acc : CriticalValueProcessor × Nat) (method : NotificationMethod) :
    CriticalValueProcessor × Nat :=
  let record : NotificationRecord :=
    { id := acc.snd, event_id := event.id, recipient_id := uid
      method := method, sent_at := now, status := .Pending
      retry_count := 0, error_message := none }
  ({ acc.fst with
     notifications := pushEntry event.id record acc.fst.notifications
     notification_queue := acc.fst.notification_queue ++ [record] },
   acc.snd + 1)

/-- Model of `CriticalValueProcessor::create_notification`
(critical_value.rs:218-251).  Only `SpecificUser` recipients are resolved;
every other recipient type returns without creating a record (marked `TODO`
in the source).  `Uuid::new_v4()` becomes the threaded counter `fresh`. -/
def create_notification (s : CriticalValueProcessor)
    (event : CriticalValueEvent) (rule : NotificationRule) (now : Time)
    (fresh : Nat) : CriticalValueProcessor × Nat :=
  match rule.recipient_type with
  | .SpecificUser uid => rule.methods.foldl (notifyStep event uid now) (s, fresh)
  | _ => (s, fresh)

/-- Model of `CriticalValueProcessor::process_critical_value_event`
(critical_value.rs:195-215). -/
def process_critical_value_event (s : CriticalValueProcessor)
    (event : CriticalValueEvent) (now : Time) (fresh : Nat) :
    CriticalValueProcessor × Nat :=
  let matching_policies := s.policies.filter (fun policy =>
    policy.is_active && policy.value_types.contains event.value_type)
  if matching_policies.isEmpty then (s, fresh)
  else
    matching_policies.foldl (fun acc policy =>
      policy.notification_rules.foldl (fun acc rule =>
        create_notification acc.fst event rule now acc.snd) acc) (s, fresh)

/-- Model of `CriticalValueProcessor::create_critical_value_event`
(critical_value.rs:161-192); `fresh` is the id of the new event and the
base for the created notification-record ids. -/
def create_critical_value_event (s : CriticalValueProcessor)
    (study_id patient_id : Uuid) (value_type : CriticalValueType)
    (description : String) (detected_by : Uuid) (severity : CriticalSeverity)
    (clinical_context : Option String) (now : Time) (fresh : Nat) :
    Except PacsError (CriticalValueEvent × CriticalValueProcessor × Nat) :=
  let event : CriticalValueEvent :=
    { id := fresh, study_id := study_id, patient_id := patient_id
      value_type := value_type, description := description
      detected_at := now, detected_by := detected_by, severity := severity
      clinical_context := clinical_context }
  let s1 := { s with events := insertId fresh event s.events }
  let r := process_critical_value_event s1 event now (fresh + 1)
  .ok (event, r.fst, r.snd)

/-- Overwrite the first record with the given record's id inside a record
list; no-op when absent — the `position`/index-assignment of
`process_notification_queue` (critical_value.rs:279-283). -/
def setFirstById (n : NotificationRecord) :
    List NotificationRecord → List NotificationRecord
  | [] => []
  | r :: rs => if r.id = n.id then n :: rs else r :: setFirstById n rs

/-- Write an updated record back into the per-event notification map. -/
def updateRecordInMap
    (notifications : List (Uuid × List NotificationRecord))
    (n : NotificationRecord) : List (Uuid × List NotificationRecord) :=
  adjustId n.event_id (setFirstById n) notifications

/-- The drain loop of `process_notification_queue`
(critical_value.rs:258-284), processing the swapped-out records in order. -/
def processQueueLoop (sender : Sender) :
    List NotificationRecord → CriticalValueProcessor → CriticalValueProcessor
  | [], s => s
  | n :: rest, s =>
      let s' :=
        match sender n with
        | none =>
            let n' := { n with status := .Sent }
            { s with notifications := updateRecordInMap s.notifications n' }
        | some e =>
            let n' :=
              { n with
                status := .Failed
                error_message := some e
                retry_count := n.retry_count + 1 }
            let s1 :=
              if n'.retry_count < 3 then
                { s with notification_queue := s.notification_queue ++ [n'] }
              else s
            { s1 with notifications := updateRecordInMap s1.notifications n' }
      processQueueLoop sender rest s'

/-- Model of `CriticalValueProcessor::process_notification_queue`
(critical_value.rs:254-287): swap the queue out, process every record,
always return `Ok(())`. -/
def process_notification_queue (sender : Sender)
    (s : CriticalValueProcessor) : Except PacsError CriticalValueProcessor :=
  .ok (processQueueLoop sender s.notification_queue
        { s with notification_queue := [] })

/-- Mark the first record whose recipient matches as Acknowledged;
`none` when no record matches — the early-returning `for` loop of
`acknowledge_critical_value`. -/
def ackFirst (user_id : Uuid) :
    List NotificationRecord → Option (List NotificationRecord)
  | [] => none
  | r :: rs =>
      if r.recipient_id = user_id then
        some ({ r with status := .Acknowledged } :: rs)
      else (ackFirst user_id rs).map (r :: ·)

/-- Model of `CriticalValueProcessor::acknowledge_critical_value`
(critical_value.rs:322-334). -/
def acknowledge_critical_value (s : CriticalValueProcessor)
    (event_id user_id : Uuid) : Except PacsError CriticalValueProcessor :=
  match lookupId event_id s.notifications with
  | some records =>
      match ackFirst user_id records with
      | some records' =>
          .ok { s with notifications := insertId event_id records' s.notifications }
      | none =>
          .error (.NotFound ("No notification found for user " ++
            toString user_id ++ " in event " ++ toString event_id))
  | none =>
      .error (.NotFound ("No notification found for user " ++
        toString user_id ++ " in event " ++ toString event_id))

/-- Model of `CriticalValueProcessor::get_unacknowledged_events`
(critical_value.rs:347-358). -/
def get_unacknowledged_events (s : CriticalValueProcessor) :
    List CriticalValueEvent :=
  (s.events.map (·.snd)).filter (fun event =>
    match lookupId event.id s.notifications with
    | some records => !(records.any (fun n => n.status == .Acknowledged))
    | none => true)

/-- Model of `CriticalValueProcessor::should_escalate`
(critical_value.rs:399-416); `NoResponse` and `RecipientUnavailable` are the
stubbed evaluations of the source. -/
def should_escalate (records : List NotificationRecord)
    (condition : EscalationCondition) : Bool :=
  match condition with
  | .NotAcknowledged => !(records.any (fun n => n.status == .Acknowledged))
  | .NotDelivered =>
      !(records.any (fun n =>
        n.status == .Delivered || n.status == .Read ||
          n.status == .Acknowledged))
  | .NoResponse => records.all (fun n => n.status == .Sent)
  | .RecipientUnavailable => false

/-- `chrono::Duration::num_minutes` on a millisecond difference: whole
minutes, truncated toward zero. -/
def minutesPassed (now detected_at : Time) : Int :=
  Int.tdiv (now - detected_at) 60000

/-- Model of `CriticalValueProcessor::check_escalations`
(critical_value.rs:370-396). -/
def check_escalations (s : CriticalValueProcessor) (now : Time) :
    Except PacsError (List EscalationAction) :=
  .ok (s.notifications.foldl (fun escalations entry =>
    match lookupId entry.fst s.events with
    | some event =>
        s.policies.foldl (fun escalations policy =>
          if policy.is_active && policy.value_types.contains event.value_type
          then
            policy.escalation_rules.foldl (fun escalations rule =>
              if minutesPassed now event.detected_at ≥
                  rule.trigger_after_minutes then
                if should_escalate entry.snd rule.condition then
                  escalations ++ [rule.action]
                else escalations
              else escalations) escalations
          else escalations) escalations
    | none => escalations) [])

end CriticalValueProcessor

/- ----------------------------------------------------------------
pacs-workflow/src/engine.rs
---------------------------------------------------------------- -/

/-- Model of the `WorkflowEngine` state (engine.rs:19); the `state_machine`
field carries no state beyond the fixed transition table and is embedded as
the `StudyStateMachine` functions. -/
structure WorkflowEngine : Type where
  routing_engine : RoutingEngine
  worklist_manager : WorkListManager
  critical_processor : CriticalValueProcessor
  deriving DecidableEq, Repr

/-- Model of `WorkflowSystemOverview` (engine.rs:331); `f64` load as `ℚ`. -/
structure WorkflowSystemOverview : Type where
  total_active_work_items : Nat
  total_unacknowledged_critical_values : Nat
  available_radiologists_count : Nat
  system_load : ℚ
  deriving DecidableEq, Repr

namespace WorkflowEngine

/-- Model of `WorkflowEngine::new` (engine.rs:28). -/
def new : WorkflowEngine :=
  { routing_engine := RoutingEngine.new
    worklist_manager := WorkListManager.new
    critical_processor := CriticalValueProcessor.new }

/-- Model of `WorkflowEngine::map_priority_to_worklist` (engine.rs:246-253). -/
def map_priority_to_worklist (routing_priority : RoutingPriority) :
    WorkItemPriority :=
  match routing_priority with
  | .Emergency => .Critical
  | .Urgent => .High
  | .Routine => .Normal
  | .Low => .Low

/-- Model of `WorkflowEngine::process_new_study` (engine.rs:38-91).  The
initial `can_transition` check only logs and has no state effect; the
`Uuid::new_v4()`/`Utc::now()` of work-item creation become `freshId`/`now`. -/
def process_new_study (w : WorkflowEngine) (study : Study)
    (priority : RoutingPriority) (freshId : Uuid) (now : Time) :
    Except PacsError WorkflowEngine :=
  let routing_request : RoutingRequest := { study := study, priority := priority }
  match w.routing_engine.route_study routing_request with
  | .error e => .error e
  | .ok routing_result =>
      match routing_result.assigned_to with
      | some radiologist_id =>
          match w.worklist_manager.create_work_item study.id
              (some radiologist_id) (map_priority_to_worklist priority) 30
              [study.modality] none freshId now with
          | .error e => .error e
          | .ok r =>
              .ok { w with
                    worklist_manager := r.snd
                    routing_engine :=
                      w.routing_engine.update_workload radiologist_id 1 }
      | none =>
          match routing_result.queue_name with
          | some queue_name =>
              match w.worklist_manager.create_work_item study.id none
                  (map_priority_to_worklist priority) 30
                  [study.modality, queue_name] none freshId now with
              | .error e => .error e
              | .ok r => .ok { w with worklist_manager := r.snd }
          | none => .ok w

/-- Model of `WorkflowEngine::get_unacknowledged_critical_values`
(engine.rs:191-193). -/
def get_unacknowledged_critical_values (w : WorkflowEngine) :
    List CriticalValueEvent :=
  w.critical_processor.get_unacknowledged_events

/-- Model of `WorkflowEngine::calculate_system_load` (engine.rs:307-326):
note the current workload is summed once per *active work item* (the
assigned reviewer's workload counter, 0 for unassigned items). -/
def calculate_system_load (w : WorkflowEngine) (work_items : List WorkItem)
    (radiologists : List Radiologist) : ℚ :=
  if radiologists.isEmpty then 1
  else
    let total_capacity : Int := (radiologists.map (·.max_workload)).sum
    let current_workload : Int :=
      (work_items.map (fun item =>
        match item.radiologist_id with
        | some radiologist_id => w.routing_engine.get_workload radiologist_id
        | none => 0)).sum
    if total_capacity = 0 then 1
    else (current_workload : ℚ) / (total_capacity : ℚ)

/-- Model of `WorkflowEngine::get_system_overview` (engine.rs:293-304). -/
def get_system_overview (w : WorkflowEngine) : WorkflowSystemOverview :=
  let active_work_items := w.worklist_manager.get_all_active_work_items
  let unacknowledged_critical := w.critical_processor.get_unacknowledged_events
  let available_radiologists := w.routing_engine.get_available_radiologists
  { total_active_work_items := active_work_items.length
    total_unacknowledged_critical_values := unacknowledged_critical.length
    available_radiologists_count := available_radiologists.length
    system_load := calculate_system_load w active_work_items available_radiologists }

end WorkflowEngine

/- ----------------------------------------------------------------
Spec-side definitions (written from the specification's words, for
comparison with the embedded source functions).
---------------------------------------------------------------- -/

/-- Spec side, C9: the reviewer-filtered view of the stored work items. -/
def reviewerFilteredItems (m : WorkListManager) (radiologist_id : Option Uuid) :
    List WorkItem :=
  match radiologist_id with
  | some rid =>
      (m.work_items.map (·.snd)).filter (fun item =>
        item.radiologist_id == some rid)
  | none => m.work_items.map (·.snd)

/-- Spec side, C9: the first page (at most 50 items, the default limit) of
the sorted, reviewer-filtered work items — what the stats are actually
computed over. -/
def firstPage (m : WorkListManager) (radiologist_id : Option Uuid) :
    List WorkItem :=
  (sortByStable WorkListManager.itemCmp
    (reviewerFilteredItems m radiologist_id)).take 50

/-- Spec side, C9: an item is overdue when its due time has passed and it is
not completed. -/
def isOverdue (now : Time) (item : WorkItem) : Bool :=
  match item.due_at with
  | some due_at => decide (now > due_at ∧ item.status ≠ .Completed)
  | none => false

/-- Spec side, C9: the aggregate statistics over a given list of work items,
written from the specification: status counts, overdue count, per-priority
counts, and the mean estimated duration of completed items. -/
def specStatsOver (now : Time) (items : List WorkItem) : WorkListStats :=
  let completed := items.filter (fun i => i.status == .Completed)
  { total_items := (items.length : Int)
    pending_items := (items.countP (fun i => i.status == .Pending) : Int)
    in_progress_items := (items.countP (fun i => i.status == .InProgress) : Int)
    completed_items := (items.countP (fun i => i.status == .Completed) : Int)
    overdue_items := (items.countP (isOverdue now) : Int)
    average_processing_time_minutes :=
      if completed.isEmpty then 0
      else
        (((completed.map (·.estimated_duration_minutes)).sum : Int) : ℚ) /
          (completed.length : ℚ)
    workload_by_priority := fun p =>
      (items.countP (fun i => i.priority == p) : Int) }

/-- Spec side, C5: the record produced by dispatching a queued notification:
Sent on success; Failed with the retry count incremented on failure. -/
def specDispatched (sender : Sender) (n : NotificationRecord) :
    NotificationRecord :=
  match sender n with
  | none => { n with status := .Sent }
  | some msg =>
      { n with
        status := .Failed
        error_message := some msg
        retry_count := n.retry_count + 1 }

/-- Spec side, C5: a dispatched record is re-queued exactly when its dispatch
failed and its incremented retry count is still below 3. -/
def specRequeue (sender : Sender) (n : NotificationRecord) :
    Option NotificationRecord :=
  match sender n with
  | none => none
  | some _ =>
      if n.retry_count + 1 < 3 then some (specDispatched sender n) else none

/-- Spec side, C6: mark the first record of the given user as Acknowledged
(whatever its prior status), leaving the rest unchanged. -/
def markFirstAck (user_id : Uuid) :
    List NotificationRecord → List NotificationRecord
  | [] => []
  | r :: rs =>
      if r.recipient_id = user_id then { r with status := .Acknowledged } :: rs
      else r :: markFirstAck user_id rs

/-- Spec side, C8: the (recipient, channel) pairs for which a notification
rule yields a queued record: one per method for a `SpecificUser` rule, none
for the unimplemented recipient types. -/
def specRuleRecipients (rule : NotificationRule) :
    List (Uuid × NotificationMethod) :=
  match rule.recipient_type with
  | .SpecificUser uid => rule.methods.map (fun m => (uid, m))
  | _ => []

/-- Spec side, C10 (claim side): the system-load ratio as the claim states
it — the sum of the current workloads of the available reviewers divided by
the sum of their max workloads, and 1 when no reviewer is available. -/
def claimSystemLoad (w : WorkflowEngine) : ℚ :=
  let available := w.routing_engine.get_available_radiologists
  if available.isEmpty then 1
  else
    ((available.map (fun r => w.routing_engine.get_workload r.id)).sum : ℚ) /
      (((available.map (·.max_workload)).sum : Int) : ℚ)

/-- Spec side, C10 (amended): available reviewers straight off the roster. -/
def availableSpec (w : WorkflowEngine) : List Radiologist :=
  (w.routing_engine.radiologists.map (·.snd)).filter (·.is_available)

/-- Spec side, C10 (amended): aggregate max workload of available reviewers. -/
def capacitySpec (w : WorkflowEngine) : Int :=
  ((availableSpec w).map (·.max_workload)).sum

/-- Spec side, C10 (amended): the Pending/InProgress work items. -/
def activeItemsSpec (w : WorkflowEngine) : List WorkItem :=
  (w.worklist_manager.work_items.map (·.snd)).filter (fun i =>
    i.status == .Pending || i.status == .InProgress)

/-- Spec side, C10 (amended): events none of whose notification records has
reached Acknowledged. -/
def unackSpec (w : WorkflowEngine) : List CriticalValueEvent :=
  (w.critical_processor.events.map (·.snd)).filter (fun ev =>
    match lookupId ev.id w.critical_processor.notifications with
    | some records => records.all (fun n => !(n.status == .Acknowledged))
    | none => true)

/-- Spec side, C10 (amended): the workload sum the code actually uses — one
contribution of the assigned reviewer's workload counter per active item. -/
def perItemWorkloadSum (w : WorkflowEngine) : Int :=
  ((activeItemsSpec w).map (fun i =>
    match i.radiologist_id with
    | some rid => (lookupId rid w.routing_engine.workload_map).getD 0
    | none => 0)).sum

/- ----------------------------------------------------------------
Concrete fixtures used by counterexamples and witnesses.
---------------------------------------------------------------- -/

/-- A work item helper for fixtures. -/
def mkItem (id : Uuid) (priority : WorkItemPriority) (assigned_at : Time)
    (status : WorkItemStatus := .Pending) (radiologist_id : Option Uuid := none) :
    WorkItem :=
  { id := id, study_id := 0, radiologist_id := radiologist_id
    status := status, priority := priority, assigned_at := assigned_at
    due_at := none, estimated_duration_minutes := 30, tags := [] }

/-- C2 fixture: one Critical-priority and one Low-priority work item with
equal assignment times. -/
def c2Manager : WorkListManager :=
  { work_items := [(1, mkItem 1 .Critical 100), (2, mkItem 2 .Low 100)]
    radiologist_worklists := []
    study_work_items := [] }

/-- C9 fixture: 51 identical Pending work items. -/
def c9Manager : WorkListManager :=
  { work_items := (List.range 51).map (fun n => (n, mkItem n .Normal 0))
    radiologist_worklists := []
    study_work_items := [] }

/-- Whether an `Except` value is `ok`. -/
def exceptIsOk {ε α : Type} : Except ε α → Bool
  | .ok _ => true
  | .error _ => false

/-- The sender double whose dispatches always succeed (this is what the
source's stubbed `send_notification` does). -/
def alwaysOkSender : Sender := fun _ => none

/-- C6 fixture: a critical-value event. -/
def c6Event : CriticalValueEvent :=
  { id := 0, study_id := 2, patient_id := 3, value_type := .Emergency
    description := "critical finding", detected_at := 0, detected_by := 4
    severity := .High, clinical_context := none }

/-- C6 fixture: a notification record that already failed permanently. -/
def c6FailedRecord : NotificationRecord :=
  { id := 5, event_id := 0, recipient_id := 1, method := .Email, sent_at := 0
    status := .Failed, retry_count := 3, error_message := none }

/-- C6 fixture: processor whose only record for event 0 / user 1 is Failed. -/
def c6StateFailed : CriticalValueProcessor :=
  { events := [(0, c6Event)], notifications := [(0, [c6FailedRecord])]
    policies := [], notification_queue := [] }

/-- C6 fixture: a Pending record whose copy is still in the send queue. -/
def c6PendingRecord : NotificationRecord :=
  { id := 6, event_id := 0, recipient_id := 1, method := .InApp, sent_at := 0
    status := .Pending, retry_count := 0, error_message := none }

/-- C6 fixture: processor with the Pending record both in the per-event map
and (as the source leaves it after `create_critical_value_event`) still in
the notification queue. -/
def c6StateQueued : CriticalValueProcessor :=
  { events := [(0, c6Event)], notifications := [(0, [c6PendingRecord])]
    policies := [], notification_queue := [c6PendingRecord] }

/-- C6 fixture: the state after acknowledging the queued-record state. -/
def c6AfterAck : CriticalValueProcessor :=
  match CriticalValueProcessor.acknowledge_critical_value c6StateQueued 0 1 with
  | .ok s => s
  | .error _ => CriticalValueProcessor.new

/-- C6 fixture: the state after then draining the notification queue. -/
def c6AfterProcess : CriticalValueProcessor :=
  match CriticalValueProcessor.process_notification_queue alwaysOkSender
      c6AfterAck with
  | .ok s => s
  | .error _ => CriticalValueProcessor.new

/-- C7 witness fixture: an event detected at time 0. -/
def c7Event : CriticalValueEvent :=
  { id := 0, study_id := 1, patient_id := 2, value_type := .Emergency
    description := "finding", detected_at := 0, detected_by := 3
    severity := .Critical, clinical_context := none }

/-- C7 witness fixture: the event's single Pending notification record. -/
def c7Record : NotificationRecord :=
  { id := 9, event_id := 0, recipient_id := 4, method := .Email, sent_at := 0
    status := .Pending, retry_count := 0, error_message := none }

/-- C7 witness fixture: escalate to the admin 5 minutes after detection when
the notification has not been delivered. -/
def c7Rule : EscalationRule :=
  { condition := .NotDelivered, action := .NotifyAdmin
    trigger_after_minutes := 5 }

/-- C7 witness fixture: an active policy carrying the escalation rule. -/
def c7Policy : CriticalValuePolicy :=
  { id := 7, name := "pol", value_types := [.Emergency]
    notification_rules := [], escalation_rules := [c7Rule], is_active := true }

/-- C8 fixture: a notification rule for an unimplemented recipient type with
one channel. -/
def c8Rule : NotificationRule :=
  { recipient_type := .DepartmentHead, recipient_id := none
    methods := [.Email], delay_minutes := 0, require_acknowledgment := true }

/-- C8 fixture: an active policy matching Emergency events via `c8Rule`. -/
def c8Policy : CriticalValuePolicy :=
  { id := 100, name := "policy", value_types := [.Emergency]
    notification_rules := [c8Rule], escalation_rules := [], is_active := true }

/-- C8 fixture: a processor holding only `c8Policy`. -/
def c8State : CriticalValueProcessor :=
  { CriticalValueProcessor.new with policies := [c8Policy] }

/-- C8 fixture: the processor state after creating a matching event. -/
def c8After : CriticalValueProcessor :=
  match CriticalValueProcessor.create_critical_value_event c8State 1 2
      .Emergency "finding" 3 .High none 0 10 with
  | .ok r => r.snd.fst
  | .error _ => CriticalValueProcessor.new

/-- C3 fixture: an always-matching rule assigning to the Neuroradiology
specialty. -/
def c3Rule : RoutingRule :=
  { id := 50, name := "neuro", priority := 100, conditions := []
    action := .AssignToSpecialty .Neuroradiology, is_active := true }

/-- C3 fixture: an engine with the rule and an *empty* roster, so the
specialty action finds no eligible reviewer. -/
def c3Engine : WorkflowEngine :=
  { WorkflowEngine.new with routing_engine := RoutingEngine.new.add_rule c3Rule }

/-- C3 fixture: the incoming study. -/
def c3Study : Study :=
  { id := 9, study_uid := "1.2.3", patient_id := 8, accession_number := "A1"
    study_date := 0, study_time := none, modality := "CT", description := none
    status := .Scheduled, created_at := 0, updated_at := 0 }

/-- C3 witness fixture: an available Neuroradiology reviewer. -/
def c3Radiologist : Radiologist :=
  { id := 11, name := "N", specialties := [.Neuroradiology]
    max_workload := 5, is_available := true }

/-- C3 witness fixture: the engine with the rule and the reviewer. -/
def c3EngineStaffed : WorkflowEngine :=
  { WorkflowEngine.new with
    routing_engine := (RoutingEngine.new.add_rule c3Rule).add_radiologist
      c3Radiologist }

/-- C10 fixture: one available reviewer with max workload 10. -/
def c10Radiologist : Radiologist :=
  { id := 1, name := "R", specialties := [.General], max_workload := 10
    is_available := true }

/-- C10 fixture: the reviewer's workload counter driven to 2 through the
API. -/
def c10Routing : RoutingEngine :=
  ((RoutingEngine.new.add_radiologist c10Radiologist).update_workload 1
    1).update_workload 1 1

/-- C10 fixture: two active work items assigned to the reviewer. -/
def c10Worklist : WorkListManager :=
  match WorkListManager.new.create_work_item 0 (some 1) .Normal 30 [] none 20
      0 with
  | .ok r =>
      match r.snd.create_work_item 0 (some 1) .Normal 30 [] none 21 0 with
      | .ok r2 => r2.snd
      | .error _ => WorkListManager.new
  | .error _ => WorkListManager.new

/-- C10 fixture: the whole engine state. -/
def c10Engine : WorkflowEngine :=
  { routing_engine := c10Routing, worklist_manager := c10Worklist
    critical_processor := CriticalValueProcessor.new }

/-- The engine state `process_new_study` produces when routing assigned a
reviewer: the work item is created for them and their workload incremented. -/
def assignedResultEngine (w : WorkflowEngine) (study : Study)
    (priority : RoutingPriority) (freshId : Uuid) (now : Time) (rid : Uuid) :
    WorkflowEngine :=
  { w with
    worklist_manager :=
      match w.worklist_manager.create_work_item study.id (some rid)
          (WorkflowEngine.map_priority_to_worklist priority) 30
          [study.modality] none freshId now with
      | .ok r => r.snd
      | .error _ => w.worklist_manager
    routing_engine := w.routing_engine.update_workload rid 1 }

/-- The engine state `process_new_study` produces when routing named a
queue: the work item is created unassigned, workloads untouched. -/
def queuedResultEngine (w : WorkflowEngine) (study : Study)
    (priority : RoutingPriority) (freshId : Uuid) (now : Time) (q : String) :
    WorkflowEngine :=
  { w with
    worklist_manager :=
      match w.worklist_manager.create_work_item study.id none
          (WorkflowEngine.map_priority_to_worklist priority) 30
          [study.modality, q] none freshId now with
      | .ok r => r.snd
      | .error _ => w.worklist_manager }

/- ----------------------------------------------------------------
C4 — workload never negative.
---------------------------------------------------------------- -/

/-- An engine built from a roster via `add_radiologist`. -/
def buildRoster (roster : List Radiologist) : RoutingEngine :=
  roster.foldl RoutingEngine.add_radiologist RoutingEngine.new

/-- A sequence of `update_workload(reviewerId, delta)` calls. -/
def applyWorkloadUpdates (updates : List (Uuid × Int)) (e : RoutingEngine) :
    RoutingEngine :=
  updates.foldl (fun e u => e.update_workload u.fst u.snd) e

/-- The nonnegativity invariant on a routing engine's workload map. -/
def WorkloadsNonneg (e : RoutingEngine) : Prop :=
  ∀ kv ∈ e.workload_map, 0 ≤ kv.snd

/-- Every value reachable by `lookupId` is a member of the list. -/
theorem lookupId_mem {α : Type} {k : Uuid} {l : List (Uuid × α)} {v : α}
    (h : lookupId k l = some v) : (k, v) ∈ l := by
  induction l with
  | nil => simp [lookupId] at h
  | cons hd tl ih =>
      obtain ⟨k', v'⟩ := hd
      by_cases hk : k' = k
      · subst hk
        simp [lookupId] at h
        subst h
        exact List.mem_cons_self _ _
      · simp [lookupId, hk] at h
        exact List.mem_cons_of_mem _ (ih h)

/-- Members of an `insertId` result are the new binding or old members. -/
theorem mem_insertId {α : Type} {k : Uuid} {v : α} {l : List (Uuid × α)}
    {kv : Uuid × α} (h : kv ∈ insertId k v l) : kv = (k, v) ∨ kv ∈ l := by
  induction l with
  | nil => simpa [insertId] using h
  | cons hd tl ih =>
      obtain ⟨k', v'⟩ := hd
      by_cases hk : k' = k
      · subst hk
        simp [insertId] at h
        rcases h with h | h
        · exact Or.inl h
        · exact Or.inr (List.mem_cons_of_mem _ h)
      · simp [insertId, hk] at h
        rcases h with h | h
        · exact Or.inr (by simp [h])
        · rcases ih h with h' | h'
          · exact Or.inl h'
          · exact Or.inr (List.mem_cons_of_mem _ h')

/-- Members of an `adjustId` result are old members or an old member with the
function applied to its value. -/
theorem mem_adjustId {α : Type} {k : Uuid} {f : α → α} {l : List (Uuid × α)}
    {kv : Uuid × α} (h : kv ∈ adjustId k f l) :
    kv ∈ l ∨ ∃ w, kv.snd = f w := by
  induction l with
  | nil => simp [adjustId] at h
  | cons hd tl ih =>
      obtain ⟨k', v'⟩ := hd
      by_cases hk : k' = k
      · subst hk
        simp [adjustId] at h
        rcases h with h | h
        · exact Or.inr ⟨v', by simp [h]⟩
        · exact Or.inl (List.mem_cons_of_mem _ h)
      · simp [adjustId, hk] at h
        rcases h with h | h
        · exact Or.inl (by simp [h])
        · rcases ih h with h' | h'
          · exact Or.inl (List.mem_cons_of_mem _ h')
          · exact Or.inr h'

theorem workloadsNonneg_new : WorkloadsNonneg RoutingEngine.new := by
  intro kv h
  simp [RoutingEngine.new] at h

theorem workloadsNonneg_add_radiologist {e : RoutingEngine}
    (he : WorkloadsNonneg e) (r : Radiologist) :
    WorkloadsNonneg (e.add_radiologist r) := by
  intro kv h
  rcases mem_insertId h with h' | h'
  · simp [h']
  · exact he kv h'

theorem workloadsNonneg_update_workload {e : RoutingEngine}
    (he : WorkloadsNonneg e) (rid : Uuid) (delta : Int) :
    WorkloadsNonneg (e.update_workload rid delta) := by
  intro kv h
  rcases mem_adjustId h with h' | ⟨w, hw⟩
  · exact he kv h'
  · rw [hw]
    dsimp only
    split
    · exact le_refl 0
    · omega

theorem workloadsNonneg_buildRoster (roster : List Radiologist) :
    WorkloadsNonneg (buildRoster roster) := by
  suffices h : ∀ e, WorkloadsNonneg e →
      WorkloadsNonneg (roster.foldl RoutingEngine.add_radiologist e) by
    exact h RoutingEngine.new workloadsNonneg_new
  induction roster with
  | nil => intro e he; exact he
  | cons r rest ih =>
      intro e he
      exact ih _ (workloadsNonneg_add_radiologist he r)

theorem workloadsNonneg_applyUpdates (updates : List (Uuid × Int))
    {e : RoutingEngine} (he : WorkloadsNonneg e) :
    WorkloadsNonneg (applyWorkloadUpdates updates e) := by
  induction updates generalizing e with
  | nil => exact he
  | cons u rest ih =>
      exact ih (workloadsNonneg_update_workload he u.fst u.snd)

/-- C4: for every roster and every finite sequence of
`update_workload(reviewerId, delta)` calls with arbitrary positive or
negative deltas, every recorded reviewer workload is nonnegative; since this
holds of every prefix of the sequence (a prefix is itself a sequence), the
workload is never negative at any point. -/
theorem c4_workload_never_negative (roster : List Radiologist)
    (updates : List (Uuid × Int)) (rid : Uuid) (w : Int)
    (h : lookupId rid
      (applyWorkloadUpdates updates (buildRoster roster)).workload_map =
        some w) : 0 ≤ w :=
  workloadsNonneg_applyUpdates updates (workloadsNonneg_buildRoster roster)
    (rid, w) (lookupId_mem h)

/-- Concrete witness for C4: a one-reviewer roster driven below zero by a
decrementing sequence still records workload 0. -/
theorem c4_workload_never_negative_witness :
    lookupId 7
      (applyWorkloadUpdates [(7, 2), (7, -5), (7, 1)]
        (buildRoster
          [{ id := 7, name := "R", specialties := [.General],
             max_workload := 5, is_available := true }])).workload_map =
      some 1 ∧ (0 : Int) ≤ 1 :=
  ⟨by decide, c4_workload_never_negative
    [{ id := 7, name := "R", specialties := [.General],
       max_workload := 5, is_available := true }]
    [(7, 2), (7, -5), (7, 1)] 7 1 (by decide)⟩

/-- C1: for the state machine built by `StudyStateMachine::new`,
`transition` returns exactly the tabulated target state on each of the six
table entries and fails with InvalidTransition on every other (state, event)
pair — in particular on every pair whose state is Final or Canceled, which
have no table entries. -/
theorem c1_transition_matches_table :
    (∀ s e, StudyStateMachine.transition s e = specTransition s e) ∧
    (∀ e, ∃ msgF msgE,
      StudyStateMachine.transition .Final e =
        .error (.InvalidStateTransition msgF e.debugStr) ∧
      StudyStateMachine.transition .Canceled e =
        .error (.InvalidStateTransition msgE e.debugStr)) := by
  constructor
  · intro s e
    cases s <;> cases e <;> rfl
  · intro e
    exact ⟨StudyStatus.Final.debugStr, StudyStatus.Canceled.debugStr, by
      cases e <;> exact ⟨rfl, rfl⟩⟩

/- ----------------------------------------------------------------
C2 — worklist ordering.
---------------------------------------------------------------- -/

/-- C2: evaluation of `query_worklist` at the failing input.  With one
Critical-priority and one Low-priority item (equal assignment times), the
sort comparator `b.priority.cmp(&a.priority)` over the derived `Ord` — under
which the first-declared variant `Critical` is the *smallest* — returns the
Low-priority item first and the Critical one last, the reverse of the
claimed Critical > High > Normal > Low priority-descending contract. -/
theorem c2_low_priority_sorted_first :
    WorkListManager.query_worklist c2Manager WorkListFilter.default =
      .ok [mkItem 2 .Low 100, mkItem 1 .Critical 100] := by decide

/- ----------------------------------------------------------------
C9 — worklist statistics.
---------------------------------------------------------------- -/

theorem statsStep_total (now : Time) (acc : WorkListStats × List WorkItem)
    (i : WorkItem) :
    (WorkListManager.statsStep now acc i).fst.total_items =
      acc.fst.total_items := by
  unfold WorkListManager.statsStep
  cases i.status <;> cases i.due_at <;> dsimp only <;> split_ifs <;> rfl

theorem statsStep_pending (now : Time) (acc : WorkListStats × List WorkItem)
    (i : WorkItem) :
    (WorkListManager.statsStep now acc i).fst.pending_items =
      acc.fst.pending_items +
        (if i.status == WorkItemStatus.Pending then 1 else 0) := by
  unfold WorkListManager.statsStep
  cases i.status <;> cases i.due_at <;> dsimp only <;> split_ifs <;> simp_all

theorem statsStep_in_progress (now : Time)
    (acc : WorkListStats × List WorkItem) (i : WorkItem) :
    (WorkListManager.statsStep now acc i).fst.in_progress_items =
      acc.fst.in_progress_items +
        (if i.status == WorkItemStatus.InProgress then 1 else 0) := by
  unfold WorkListManager.statsStep
  cases i.status <;> cases i.due_at <;> dsimp only <;> split_ifs <;> simp_all

theorem statsStep_completed (now : Time)
    (acc : WorkListStats × List WorkItem) (i : WorkItem) :
    (WorkListManager.statsStep now acc i).fst.completed_items =
      acc.fst.completed_items +
        (if i.status == WorkItemStatus.Completed then 1 else 0) := by
  unfold WorkListManager.statsStep
  cases i.status <;> cases i.due_at <;> dsimp only <;> split_ifs <;> simp_all

theorem statsStep_overdue (now : Time) (acc : WorkListStats × List WorkItem)
    (i : WorkItem) :
    (WorkListManager.statsStep now acc i).fst.overdue_items =
      acc.fst.overdue_items + (if isOverdue now i then 1 else 0) := by
  unfold WorkListManager.statsStep isOverdue
  cases hst : i.status <;> cases hdue : i.due_at <;>
    simp [hst, hdue] <;> split_ifs <;> simp_all

theorem statsStep_average (now : Time) (acc : WorkListStats × List WorkItem)
    (i : WorkItem) :
    (WorkListManager.statsStep now acc i).fst.average_processing_time_minutes =
      acc.fst.average_processing_time_minutes := by
  unfold WorkListManager.statsStep
  cases i.status <;> cases i.due_at <;> dsimp only <;> split_ifs <;> rfl

theorem statsStep_workload (now : Time) (acc : WorkListStats × List WorkItem)
    (i : WorkItem) (p : WorkItemPriority) :
    (WorkListManager.statsStep now acc i).fst.workload_by_priority p =
      acc.fst.workload_by_priority p +
        (if i.priority == p then 1 else 0) := by
  unfold WorkListManager.statsStep
  cases i.status <;> cases i.due_at <;> dsimp only <;> split_ifs <;>
    simp_all [BEq.beq, eq_comm]

theorem statsStep_snd (now : Time) (acc : WorkListStats × List WorkItem)
    (i : WorkItem) :
    (WorkListManager.statsStep now acc i).snd =
      acc.snd ++ (if i.status == WorkItemStatus.Completed then [i] else []) := by
  unfold WorkListManager.statsStep
  cases i.status <;> cases i.due_at <;> dsimp only <;> split_ifs <;> simp_all

theorem foldStats_total (now : Time) (items : List WorkItem) :
    ∀ acc : WorkListStats × List WorkItem,
      (items.foldl (WorkListManager.statsStep now) acc).fst.total_items =
        acc.fst.total_items := by
  induction items with
  | nil => intro acc; rfl
  | cons i rest ih =>
      intro acc
      rw [List.foldl_cons, ih, statsStep_total]

theorem foldStats_pending (now : Time) (items : List WorkItem) :
    ∀ acc : WorkListStats × List WorkItem,
      (items.foldl (WorkListManager.statsStep now) acc).fst.pending_items =
        acc.fst.pending_items +
          (items.countP (fun i => i.status == .Pending) : Int) := by
  induction items with
  | nil => intro acc; simp
  | cons i rest ih =>
      intro acc
      rw [List.foldl_cons, ih, statsStep_pending, List.countP_cons]
      split_ifs <;> push_cast <;> ring

theorem foldStats_in_progress (now : Time) (items : List WorkItem) :
    ∀ acc : WorkListStats × List WorkItem,
      (items.foldl (WorkListManager.statsStep now) acc).fst.in_progress_items =
        acc.fst.in_progress_items +
          (items.countP (fun i => i.status == .InProgress) : Int) := by
  induction items with
  | nil => intro acc; simp
  | cons i rest ih =>
      intro acc
      rw [List.foldl_cons, ih, statsStep_in_progress, List.countP_cons]
      split_ifs <;> push_cast <;> ring

theorem foldStats_completed (now : Time) (items : List WorkItem) :
    ∀ acc : WorkListStats × List WorkItem,
      (items.foldl (WorkListManager.statsStep now) acc).fst.completed_items =
        acc.fst.completed_items +
          (items.countP (fun i => i.status == .Completed) : Int) := by
  induction items with
  | nil => intro acc; simp
  | cons i rest ih =>
      intro acc
      rw [List.foldl_cons, ih, statsStep_completed, List.countP_cons]
      split_ifs <;> push_cast <;> ring

theorem foldStats_overdue (now : Time) (items : List WorkItem) :
    ∀ acc : WorkListStats × List WorkItem,
      (items.foldl (WorkListManager.statsStep now) acc).fst.overdue_items =
        acc.fst.overdue_items + (items.countP (isOverdue now) : Int) := by
  induction items with
  | nil => intro acc; simp
  | cons i rest ih =>
      intro acc
      rw [List.foldl_cons, ih, statsStep_overdue, List.countP_cons]
      split_ifs <;> push_cast <;> ring

theorem foldStats_average (now : Time) (items : List WorkItem) :
    ∀ acc : WorkListStats × List WorkItem,
      (items.foldl (WorkListManager.statsStep now)
        acc).fst.average_processing_time_minutes =
          acc.fst.average_processing_time_minutes := by
  induction items with
  | nil => intro acc; rfl
  | cons i rest ih =>
      intro acc
      rw [List.foldl_cons, ih, statsStep_average]

theorem foldStats_workload (now : Time) (items : List WorkItem)
    (p : WorkItemPriority) :
    ∀ acc : WorkListStats × List WorkItem,
      (items.foldl (WorkListManager.statsStep now) acc).fst.workload_by_priority
          p =
        acc.fst.workload_by_priority p +
          (items.countP (fun i => i.priority == p) : Int) := by
  induction items with
  | nil => intro acc; simp
  | cons i rest ih =>
      intro acc
      rw [List.foldl_cons, ih, statsStep_workload, List.countP_cons]
      split_ifs <;> push_cast <;> ring

theorem foldStats_snd (now : Time) (items : List WorkItem) :
    ∀ acc : WorkListStats × List WorkItem,
      (items.foldl (WorkListManager.statsStep now) acc).snd =
        acc.snd ++ items.filter (fun i => i.status == .Completed) := by
  induction items with
  | nil => intro acc; simp
  | cons i rest ih =>
      intro acc
      rw [List.foldl_cons, ih, statsStep_snd, List.filter_cons]
      split_ifs <;> simp

theorem take_min_length {α : Type} (l : List α) (n : Nat) :
    l.take (min n l.length) = l.take n := by
  rcases le_total n l.length with h | h
  · rw [min_eq_left h]
  · rw [min_eq_right h, List.take_length, List.take_of_length_le h]

/-- Under the default filter (with a reviewer restriction), `query_worklist`
returns exactly the first page: the first 50 sorted, reviewer-filtered
items. -/
theorem query_default_eq_firstPage (m : WorkListManager)
    (rid : Option Uuid) :
    WorkListManager.query_worklist m (WorkListManager.statsFilter rid) =
      .ok (firstPage m rid) := by
  have h0 : WorkListManager.intToUsize 0 = 0 := by decide
  have h50 : WorkListManager.intToUsize 50 = 50 := by decide
  unfold WorkListManager.query_worklist firstPage reviewerFilteredItems
    WorkListManager.statsFilter WorkListFilter.default
  cases rid <;>
    simp [h0, h50, take_min_length]

/-- C9 (amended): `get_worklist_stats` aggregates exactly the spec's
statistics, but over the *first page* (at most the default limit of 50) of
the sorted reviewer-filtered work items, not over all matching items. -/
theorem c9_stats_over_first_page (m : WorkListManager)
    (radiologist_id : Option Uuid) (now : Time) :
    WorkListManager.get_worklist_stats m radiologist_id now =
      specStatsOver now (firstPage m radiologist_id) := by
  unfold WorkListManager.get_worklist_stats
  dsimp only
  rw [query_default_eq_firstPage]
  set items := firstPage m radiologist_id with hitems
  rw [specStatsOver]
  dsimp only
  rw [foldStats_snd]
  simp only [List.nil_append]
  split_ifs with hc
  · ext p <;>
      simp [foldStats_total, foldStats_pending, foldStats_in_progress,
        foldStats_completed, foldStats_overdue, foldStats_average,
        foldStats_workload, hc, List.countP_eq_length_filter]
  · ext p <;>
      simp [foldStats_total, foldStats_pending, foldStats_in_progress,
        foldStats_completed, foldStats_overdue, foldStats_average,
        foldStats_workload, foldStats_snd, hc, List.countP_eq_length_filter]

/-- C9 counterexample: with 51 stored Pending work items and no reviewer
filter, the claim's reading (stats over *all* matching items) demands a
total of 51, but `get_worklist_stats` reports 50 — the default page limit
silently truncates the aggregation. -/
theorem c9_stats_truncated_at_50 :
    c9Manager.work_items.length = 51 ∧
    (WorkListManager.get_worklist_stats c9Manager none 0).total_items = 50 := by
  constructor
  · decide
  · decide

/- ----------------------------------------------------------------
C5 — notification queue processing.
---------------------------------------------------------------- -/

theorem processQueueLoop_queue (sender : Sender) :
    ∀ (pending : List NotificationRecord) (s : CriticalValueProcessor),
      (CriticalValueProcessor.processQueueLoop sender pending
          s).notification_queue =
        s.notification_queue ++ pending.filterMap (specRequeue sender) := by
  intro pending
  induction pending with
  | nil =>
      intro s
      simp [CriticalValueProcessor.processQueueLoop]
  | cons n rest ih =>
      intro s
      cases hsn : sender n with
      | none =>
          simp [CriticalValueProcessor.processQueueLoop, hsn, ih, specRequeue]
      | some e =>
          by_cases hr : n.retry_count + 1 < 3 <;>
            simp [CriticalValueProcessor.processQueueLoop, hsn, ih,
              specRequeue, specDispatched, hr]

theorem processQueueLoop_notifications (sender : Sender) :
    ∀ (pending : List NotificationRecord) (s : CriticalValueProcessor),
      (CriticalValueProcessor.processQueueLoop sender pending s).notifications =
        pending.foldl
          (fun mp n =>
            CriticalValueProcessor.updateRecordInMap mp
              (specDispatched sender n))
          s.notifications := by
  intro pending
  induction pending with
  | nil =>
      intro s
      simp [CriticalValueProcessor.processQueueLoop]
  | cons n rest ih =>
      intro s
      cases hsn : sender n with
      | none =>
          simp [CriticalValueProcessor.processQueueLoop, hsn, ih,
            specDispatched]
      | some e =>
          by_cases hr : n.retry_count + 1 < 3 <;>
            simp [CriticalValueProcessor.processQueueLoop, hsn, ih,
              specDispatched, hr]

/-- C5: `process_notification_queue` never reports an error to the caller;
after a drain, the requeued records are exactly the failed dispatches whose
incremented retry count is still below 3, every per-event record is updated
with its dispatch outcome, and the outcome is: status Sent (retry count
unchanged) on success, status Failed with the retry count incremented by one
on failure — so a record reaching retry count 3 is left Failed and is never
re-queued. -/
theorem c5_notification_retry_protocol (sender : Sender)
    (s : CriticalValueProcessor) :
    ∃ s', CriticalValueProcessor.process_notification_queue sender s = .ok s' ∧
      s'.notification_queue =
        s.notification_queue.filterMap (specRequeue sender) ∧
      s'.notifications =
        s.notification_queue.foldl
          (fun mp n =>
            CriticalValueProcessor.updateRecordInMap mp
              (specDispatched sender n))
          s.notifications ∧
      (∀ n, (specDispatched sender n).status =
        if (sender n).isSome then .Failed else .Sent) ∧
      (∀ n, (specDispatched sender n).retry_count =
        if (sender n).isSome then n.retry_count + 1 else n.retry_count) ∧
      (∀ n, (specRequeue sender n).isSome =
        ((sender n).isSome && decide (n.retry_count + 1 < 3))) := by
  refine ⟨_, rfl, ?_, ?_, ?_, ?_, ?_⟩
  · rw [processQueueLoop_queue]
    rfl
  · rw [processQueueLoop_notifications]
  · intro n
    cases hsn : sender n <;> simp [specDispatched, hsn]
  · intro n
    cases hsn : sender n <;> simp [specDispatched, hsn]
  · intro n
    cases hsn : sender n with
    | none => simp [specRequeue, hsn]
    | some e =>
        by_cases hr : n.retry_count + 1 < 3 <;> simp [specRequeue, hsn, hr]

/- ----------------------------------------------------------------
C6 — acknowledgment.
---------------------------------------------------------------- -/

theorem lookupId_insertId_self {α : Type} (k : Uuid) (v : α)
    (l : List (Uuid × α)) : lookupId k (insertId k v l) = some v := by
  induction l with
  | nil => simp [insertId, lookupId]
  | cons hd tl ih =>
      obtain ⟨k', v'⟩ := hd
      by_cases hk : k' = k
      · simp [insertId, hk, lookupId]
      · simp [insertId, hk, lookupId, ih]

theorem insertId_insertId {α : Type} (k : Uuid) (v : α)
    (l : List (Uuid × α)) : insertId k v (insertId k v l) = insertId k v l := by
  induction l with
  | nil => simp [insertId]
  | cons hd tl ih =>
      obtain ⟨k', v'⟩ := hd
      by_cases hk : k' = k
      · simp [insertId, hk]
      · simp [insertId, hk, ih]

theorem ackFirst_of_any_true (user_id : Uuid) :
    ∀ records : List NotificationRecord,
      records.any (fun r => r.recipient_id == user_id) = true →
      CriticalValueProcessor.ackFirst user_id records =
        some (markFirstAck user_id records) := by
  intro records
  induction records with
  | nil => intro h; simp at h
  | cons r rs ih =>
      intro h
      by_cases hr : r.recipient_id = user_id
      · simp [CriticalValueProcessor.ackFirst, markFirstAck, hr]
      · have h' : rs.any (fun r => r.recipient_id == user_id) = true := by
          simpa [hr] using h
        simp [CriticalValueProcessor.ackFirst, markFirstAck, hr, ih h']

theorem ackFirst_of_any_false (user_id : Uuid) :
    ∀ records : List NotificationRecord,
      records.any (fun r => r.recipient_id == user_id) = false →
      CriticalValueProcessor.ackFirst user_id records = none := by
  intro records
  induction records with
  | nil => intro h; simp [CriticalValueProcessor.ackFirst]
  | cons r rs ih =>
      intro h
      simp only [List.any_cons, Bool.or_eq_false_iff] at h
      have hr : ¬r.recipient_id = user_id := by simpa using h.1
      simp [CriticalValueProcessor.ackFirst, hr, ih h.2]

theorem ackFirst_idem (user_id : Uuid) :
    ∀ records res : List NotificationRecord,
      CriticalValueProcessor.ackFirst user_id records = some res →
      CriticalValueProcessor.ackFirst user_id res = some res := by
  intro records
  induction records with
  | nil => intro res h; simp [CriticalValueProcessor.ackFirst] at h
  | cons r rs ih =>
      intro res h
      by_cases hr : r.recipient_id = user_id
      · simp [CriticalValueProcessor.ackFirst, hr] at h
        subst h
        simp [CriticalValueProcessor.ackFirst, hr]
      · simp [CriticalValueProcessor.ackFirst, hr] at h
        obtain ⟨rs', hrs', hres⟩ := h
        subst hres
        simp [CriticalValueProcessor.ackFirst, hr, ih rs' hrs']

/-- C6 (amended): `acknowledge_critical_value` marks the *first* record of
the given user and event as Acknowledged regardless of the record's prior
status, fails with NotFound exactly when the event has no record for that
user, and is idempotent (re-acknowledging succeeds and leaves the state
unchanged).  The pending-or-sent restriction of the original claim does not
exist in the code, and a queued copy processed later may overwrite an
Acknowledged status (see the counterexample). -/
theorem c6_ack_amended (s : CriticalValueProcessor) (event_id user_id : Uuid) :
    (∀ records, lookupId event_id s.notifications = some records →
      ((records.any (fun r => r.recipient_id == user_id) = true →
        CriticalValueProcessor.acknowledge_critical_value s event_id user_id =
          .ok { s with
                notifications :=
                  insertId event_id (markFirstAck user_id records)
                    s.notifications }) ∧
       (records.any (fun r => r.recipient_id == user_id) = false →
        CriticalValueProcessor.acknowledge_critical_value s event_id user_id =
          .error (.NotFound ("No notification found for user " ++
            toString user_id ++ " in event " ++ toString event_id))))) ∧
    (lookupId event_id s.notifications = none →
      CriticalValueProcessor.acknowledge_critical_value s event_id user_id =
        .error (.NotFound ("No notification found for user " ++
          toString user_id ++ " in event " ++ toString event_id))) ∧
    (∀ s', CriticalValueProcessor.acknowledge_critical_value s event_id
        user_id = .ok s' →
      CriticalValueProcessor.acknowledge_critical_value s' event_id user_id =
        .ok s') := by
  refine ⟨?_, ?_, ?_⟩
  · intro records hlook
    constructor
    · intro hany
      simp [CriticalValueProcessor.acknowledge_critical_value, hlook,
        ackFirst_of_any_true user_id records hany]
    · intro hany
      simp [CriticalValueProcessor.acknowledge_critical_value, hlook,
        ackFirst_of_any_false user_id records hany]
  · intro hlook
    simp [CriticalValueProcessor.acknowledge_critical_value, hlook]
  · intro s' h
    unfold CriticalValueProcessor.acknowledge_critical_value at h
    cases hlook : lookupId event_id s.notifications with
    | none => rw [hlook] at h; simp at h
    | some records =>
        rw [hlook] at h
        dsimp only at h
        cases hack : CriticalValueProcessor.ackFirst user_id records with
        | none => rw [hack] at h; simp at h
        | some records' =>
            rw [hack] at h
            dsimp only at h
            simp only [Except.ok.injEq] at h
            subst h
            simp [CriticalValueProcessor.acknowledge_critical_value,
              lookupId_insertId_self, ackFirst_idem user_id records records'
                hack, insertId_insertId]

/-- C6 witness: acknowledging event 0 for user 1 on a state whose only
matching record exists succeeds and marks that first record Acknowledged. -/
theorem c6_ack_amended_witness :
    CriticalValueProcessor.acknowledge_critical_value c6StateFailed 0 1 =
      .ok { c6StateFailed with
            notifications :=
              insertId 0 (markFirstAck 1 [c6FailedRecord])
                c6StateFailed.notifications } :=
  ((c6_ack_amended c6StateFailed 0 1).1 [c6FailedRecord] (by decide)).1
    (by decide)

/-- C6 counterexample: (i) the only record for event 0 / user 1 has status
Failed — not pending-or-sent — yet `acknowledge_critical_value` succeeds
instead of failing with NotFound; (ii) after acknowledging a record whose
Pending copy is still queued, draining the queue overwrites the record's
status from Acknowledged back to Sent — a status regression the claim rules
out. -/
theorem c6_ack_counterexample :
    exceptIsOk
      (CriticalValueProcessor.acknowledge_critical_value c6StateFailed 0 1) =
        true ∧
    ((lookupId 0 c6AfterAck.notifications).getD []).map (·.status) =
      [.Acknowledged] ∧
    ((lookupId 0 c6AfterProcess.notifications).getD []).map (·.status) =
      [.Sent] := by
  refine ⟨by decide, by decide, by decide⟩

/- ----------------------------------------------------------------
C7 — escalation threshold.
---------------------------------------------------------------- -/

/-- C7: for an event whose only notification record is Pending and a
matching active policy with one escalation rule whose condition holds on
that record (as NotAcknowledged and NotDelivered do for a Pending record),
`check_escalations` includes the rule's action at *every* instant whose
elapsed time since detection is at or past the trigger threshold, and does
not include it one millisecond before the threshold.  The check runs at or
after detection, so the threshold is at least one minute for the
one-millisecond-early instant to exist. -/
theorem c7_escalation_at_threshold (ev : CriticalValueEvent)
    (pol : CriticalValuePolicy) (rule : EscalationRule)
    (r : NotificationRecord) (q : List NotificationRecord)
    (hact : pol.is_active = true)
    (hvt : pol.value_types.contains ev.value_type = true)
    (hrules : pol.escalation_rules = [rule])
    (_hpend : r.status = .Pending)
    (hcond : CriticalValueProcessor.should_escalate [r] rule.condition = true)
    (htr : 1 ≤ rule.trigger_after_minutes) :
    (∀ now : Time,
      ev.detected_at + rule.trigger_after_minutes * 60000 ≤ now →
      CriticalValueProcessor.check_escalations
        { events := [(ev.id, ev)], notifications := [(ev.id, [r])]
          policies := [pol], notification_queue := q }
        now = .ok [rule.action]) ∧
    (CriticalValueProcessor.check_escalations
        { events := [(ev.id, ev)], notifications := [(ev.id, [r])]
          policies := [pol], notification_queue := q }
        (ev.detected_at + rule.trigger_after_minutes * 60000 - 1) =
      .ok []) := by
  have hmem : ev.value_type ∈ pol.value_types := by simpa using hvt
  constructor
  · intro now hge
    have hT0 : (0 : Int) ≤ rule.trigger_after_minutes :=
      le_trans zero_le_one htr
    have hT : (0 : Int) ≤ rule.trigger_after_minutes * 60000 :=
      mul_nonneg hT0 (by norm_num)
    have hnonneg : (0 : Int) ≤ now - ev.detected_at := by linarith
    have hm : rule.trigger_after_minutes ≤
        CriticalValueProcessor.minutesPassed now ev.detected_at := by
      unfold CriticalValueProcessor.minutesPassed
      rw [Int.tdiv_eq_ediv hnonneg (by norm_num)]
      rw [Int.le_ediv_iff_mul_le (by norm_num : (0 : Int) < 60000)]
      linarith
    simp [CriticalValueProcessor.check_escalations, lookupId, hact, hvt,
      hmem, hrules, hm, hcond]
  · have hm : CriticalValueProcessor.minutesPassed
        (ev.detected_at + rule.trigger_after_minutes * 60000 - 1)
          ev.detected_at = rule.trigger_after_minutes - 1 := by
      unfold CriticalValueProcessor.minutesPassed
      rw [show ev.detected_at + rule.trigger_after_minutes * 60000 - 1 -
          ev.detected_at = rule.trigger_after_minutes * 60000 - 1 by ring]
      rw [Int.tdiv_eq_ediv (by omega) (by norm_num)]
      omega
    have hlt : ¬(rule.trigger_after_minutes - 1 ≥
        rule.trigger_after_minutes) := by omega
    simp [CriticalValueProcessor.check_escalations, lookupId, hact, hvt,
      hmem, hrules, hm, hlt]

/-- C7 witness: detection at 0, a 5-minute rule, a single Pending record;
escalation fires at the 300000 ms threshold, still fires well past it at
1000000 ms, and does not fire at 299999 ms. -/
theorem c7_escalation_witness :
    (CriticalValueProcessor.check_escalations
        { events := [(c7Event.id, c7Event)]
          notifications := [(c7Event.id, [c7Record])]
          policies := [c7Policy], notification_queue := [] }
        (c7Event.detected_at + c7Rule.trigger_after_minutes * 60000) =
      .ok [c7Rule.action]) ∧
    (CriticalValueProcessor.check_escalations
        { events := [(c7Event.id, c7Event)]
          notifications := [(c7Event.id, [c7Record])]
          policies := [c7Policy], notification_queue := [] }
        1000000 = .ok [c7Rule.action]) ∧
    (CriticalValueProcessor.check_escalations
        { events := [(c7Event.id, c7Event)]
          notifications := [(c7Event.id, [c7Record])]
          policies := [c7Policy], notification_queue := [] }
        (c7Event.detected_at + c7Rule.trigger_after_minutes * 60000 - 1) =
      .ok []) :=
  have h := c7_escalation_at_threshold c7Event c7Policy c7Rule c7Record []
    (by decide) (by decide) (by decide) (by decide) (by decide) (by decide)
  ⟨h.1 _ (by decide), h.1 1000000 (by decide), h.2⟩

/- ----------------------------------------------------------------
C8 — notification fan-out on event creation.
---------------------------------------------------------------- -/

theorem notifyFold_queue_proj (ev : CriticalValueEvent) (uid : Uuid)
    (now : Time) :
    ∀ (ms : List NotificationMethod) (s : CriticalValueProcessor) (k : Nat),
      ((ms.foldl (CriticalValueProcessor.notifyStep ev uid now)
          (s, k)).fst.notification_queue).map
        (fun r => (r.recipient_id, r.method, r.status, r.event_id,
          r.retry_count)) =
      s.notification_queue.map
        (fun r => (r.recipient_id, r.method, r.status, r.event_id,
          r.retry_count)) ++
        ms.map (fun m => (uid, m, NotificationStatus.Pending, ev.id,
          (0 : Int))) := by
  intro ms
  induction ms with
  | nil => intro s k; simp
  | cons m rest ih =>
      intro s k
      rw [List.foldl_cons]
      rw [show CriticalValueProcessor.notifyStep ev uid now (s, k) m =
        ({ s with
           notifications := pushEntry ev.id
             { id := k, event_id := ev.id, recipient_id := uid, method := m
               sent_at := now, status := .Pending, retry_count := 0
               error_message := none } s.notifications
           notification_queue := s.notification_queue ++
             [{ id := k, event_id := ev.id, recipient_id := uid, method := m
                sent_at := now, status := .Pending, retry_count := 0
                error_message := none }] }, k + 1) from rfl]
      rw [ih]
      simp

theorem create_notification_queue_proj (ev : CriticalValueEvent) (now : Time)
    (rule : NotificationRule) (s : CriticalValueProcessor) (k : Nat) :
    ((CriticalValueProcessor.create_notification s ev rule now
        k).fst.notification_queue).map
      (fun r => (r.recipient_id, r.method, r.status, r.event_id,
        r.retry_count)) =
    s.notification_queue.map
      (fun r => (r.recipient_id, r.method, r.status, r.event_id,
        r.retry_count)) ++
      (specRuleRecipients rule).map
        (fun um => (um.fst, um.snd, NotificationStatus.Pending, ev.id,
          (0 : Int))) := by
  unfold CriticalValueProcessor.create_notification specRuleRecipients
  cases rule.recipient_type <;>
    simp [notifyFold_queue_proj, Function.comp]

theorem ruleFold_queue_proj (ev : CriticalValueEvent) (now : Time) :
    ∀ (rules : List NotificationRule) (s : CriticalValueProcessor) (k : Nat),
      (((rules.foldl
          (fun acc rule =>
            CriticalValueProcessor.create_notification acc.fst ev rule now
              acc.snd)
          (s, k)).fst).notification_queue).map
        (fun r => (r.recipient_id, r.method, r.status, r.event_id,
          r.retry_count)) =
      s.notification_queue.map
        (fun r => (r.recipient_id, r.method, r.status, r.event_id,
          r.retry_count)) ++
        rules.flatMap (fun rule =>
          (specRuleRecipients rule).map
            (fun um => (um.fst, um.snd, NotificationStatus.Pending, ev.id,
              (0 : Int)))) := by
  intro rules
  induction rules with
  | nil => intro s k; simp
  | cons rule rest ih =>
      intro s k
      rw [List.foldl_cons]
      dsimp only
      rw [show (CriticalValueProcessor.create_notification s ev rule now k) =
        ((CriticalValueProcessor.create_notification s ev rule now k).fst,
         (CriticalValueProcessor.create_notification s ev rule now k).snd)
        from rfl]
      rw [ih]
      rw [create_notification_queue_proj]
      simp

theorem policyFold_queue_proj (ev : CriticalValueEvent) (now : Time) :
    ∀ (pols : List CriticalValuePolicy) (s : CriticalValueProcessor)
      (k : Nat),
      (((pols.foldl
          (fun acc policy =>
            policy.notification_rules.foldl
              (fun acc rule =>
                CriticalValueProcessor.create_notification acc.fst ev rule now
                  acc.snd)
              acc)
          (s, k)).fst).notification_queue).map
        (fun r => (r.recipient_id, r.method, r.status, r.event_id,
          r.retry_count)) =
      s.notification_queue.map
        (fun r => (r.recipient_id, r.method, r.status, r.event_id,
          r.retry_count)) ++
        pols.flatMap (fun policy =>
          policy.notification_rules.flatMap (fun rule =>
            (specRuleRecipients rule).map
              (fun um => (um.fst, um.snd, NotificationStatus.Pending, ev.id,
                (0 : Int))))) := by
  intro pols
  induction pols with
  | nil => intro s k; simp
  | cons pol rest ih =>
      intro s k
      rw [List.foldl_cons]
      rw [show (pol.notification_rules.foldl
          (fun acc rule =>
            CriticalValueProcessor.create_notification acc.fst ev rule now
              acc.snd)
          (s, k)) =
        ((pol.notification_rules.foldl
          (fun acc rule =>
            CriticalValueProcessor.create_notification acc.fst ev rule now
              acc.snd)
          (s, k)).fst,
         (pol.notification_rules.foldl
          (fun acc rule =>
            CriticalValueProcessor.create_notification acc.fst ev rule now
              acc.snd)
          (s, k)).snd) from rfl]
      rw [ih]
      rw [ruleFold_queue_proj]
      simp

/-- C8 (amended): `create_critical_value_event` always succeeds and queues,
for each active policy whose value-type set contains the event's type and
for each of that policy's notification rules, exactly one Pending
NotificationRecord (bearing the new event's id and retry count 0) per
(recipient, channel) pair — but *only* for rules whose recipient type is
`SpecificUser`; rules with any other recipient type (referring physician,
department head, ...) are unimplemented in the source and queue nothing. -/
theorem c8_records_only_for_specific_user (s : CriticalValueProcessor)
    (study_id patient_id : Uuid) (value_type : CriticalValueType)
    (description : String) (detected_by : Uuid) (severity : CriticalSeverity)
    (clinical_context : Option String) (now : Time) (fresh : Nat) :
    ∃ ev s' fresh',
      CriticalValueProcessor.create_critical_value_event s study_id patient_id
        value_type description detected_by severity clinical_context now
        fresh = .ok (ev, s', fresh') ∧
      ev.id = fresh ∧
      (s'.notification_queue).map
        (fun r => (r.recipient_id, r.method, r.status, r.event_id,
          r.retry_count)) =
      s.notification_queue.map
        (fun r => (r.recipient_id, r.method, r.status, r.event_id,
          r.retry_count)) ++
        ((s.policies.filter (fun policy =>
            policy.is_active && policy.value_types.contains value_type)).flatMap
          (fun policy =>
            policy.notification_rules.flatMap (fun rule =>
              (specRuleRecipients rule).map
                (fun um => (um.fst, um.snd, NotificationStatus.Pending, fresh,
                  (0 : Int)))))) := by
  refine ⟨_, _, _, rfl, rfl, ?_⟩
  unfold CriticalValueProcessor.process_critical_value_event
  dsimp only
  split_ifs with hempty
  · rw [List.isEmpty_iff] at hempty
    rw [hempty]
    simp
  · rw [policyFold_queue_proj]

/-- C8 counterexample: an active matching policy whose single rule targets
the DepartmentHead recipient through one channel queues *zero* records on
event creation, though the claim demands one Pending record per
(recipient, channel) pair of each rule. -/
theorem c8_unimplemented_recipient_queues_nothing :
    c8Policy.is_active = true ∧
    c8Policy.value_types.contains CriticalValueType.Emergency = true ∧
    c8Rule.methods.length = 1 ∧
    c8After.notification_queue = [] ∧
    lookupId 10 c8After.notifications = none := by decide

/- ----------------------------------------------------------------
C3 — process_new_study.
---------------------------------------------------------------- -/

theorem insertId_append_of_none {α : Type} (k : Uuid) (v : α) :
    ∀ l : List (Uuid × α), lookupId k l = none → insertId k v l = l ++ [(k, v)] := by
  intro l
  induction l with
  | nil => intro _; rfl
  | cons hd tl ih =>
      obtain ⟨k', v'⟩ := hd
      intro h
      by_cases hk : k' = k
      · simp [lookupId, hk] at h
      · simp [lookupId, hk] at h
        simp [insertId, hk, ih h]

theorem lookupId_adjustId_self {α : Type} (k : Uuid) (f : α → α) :
    ∀ l : List (Uuid × α),
      lookupId k (adjustId k f l) = (lookupId k l).map f := by
  intro l
  induction l with
  | nil => rfl
  | cons hd tl ih =>
      obtain ⟨k', v⟩ := hd
      by_cases hk : k' = k
      · simp [adjustId, lookupId, hk]
      · simp [adjustId, lookupId, hk, ih]

theorem lookupId_adjustId_ne {α : Type} (k k' : Uuid) (f : α → α)
    (h : k' ≠ k) :
    ∀ l : List (Uuid × α), lookupId k' (adjustId k f l) = lookupId k' l := by
  intro l
  induction l with
  | nil => rfl
  | cons hd tl ih =>
      obtain ⟨k'', v⟩ := hd
      by_cases hk : k'' = k
      · subst hk
        have hne : ¬k'' = k' := fun hc => h hc.symm
        simp [adjustId, lookupId, hne]
      · by_cases hk2 : k'' = k'
        · simp [adjustId, lookupId, hk, hk2, h]
        · simp [adjustId, lookupId, hk, hk2, ih]

/-- C3 (amended): given the routing outcome for a new study,
`process_new_study` creates exactly one work item when the outcome names an
assignee (the item is assigned to them and exactly that reviewer's workload
is incremented by one) or a queue (the item is queued unassigned, workloads
untouched); but when the routing outcome has neither — as when a matched
rule's assign-to-specialty action finds no eligible reviewer — the state is
returned unchanged and *no* work item is created. -/
theorem c3_process_new_study_cases (w : WorkflowEngine) (study : Study)
    (priority : RoutingPriority) (freshId : Uuid) (now : Time)
    (res : RoutingResult)
    (hroute : w.routing_engine.route_study
        { study := study, priority := priority } = .ok res)
    (hfresh : lookupId freshId w.worklist_manager.work_items = none) :
    (∀ rid cur, res.assigned_to = some rid →
      lookupId rid w.routing_engine.workload_map = some cur → 0 ≤ cur →
      ∃ w', WorkflowEngine.process_new_study w study priority freshId now =
          .ok w' ∧
        w'.worklist_manager.work_items =
          w.worklist_manager.work_items ++
            [(freshId,
              { id := freshId, study_id := study.id
                radiologist_id := some rid, status := .Pending
                priority := WorkflowEngine.map_priority_to_worklist priority
                assigned_at := now, due_at := none
                estimated_duration_minutes := 30
                tags := [study.modality] })] ∧
        lookupId rid w'.routing_engine.workload_map = some (cur + 1) ∧
        (∀ rid', rid' ≠ rid →
          lookupId rid' w'.routing_engine.workload_map =
            lookupId rid' w.routing_engine.workload_map)) ∧
    (∀ q, res.assigned_to = none → res.queue_name = some q →
      ∃ w', WorkflowEngine.process_new_study w study priority freshId now =
          .ok w' ∧
        w'.worklist_manager.work_items =
          w.worklist_manager.work_items ++
            [(freshId,
              { id := freshId, study_id := study.id, radiologist_id := none
                status := .Pending
                priority := WorkflowEngine.map_priority_to_worklist priority
                assigned_at := now, due_at := none
                estimated_duration_minutes := 30
                tags := [study.modality, q] })] ∧
        w'.routing_engine = w.routing_engine) ∧
    (res.assigned_to = none → res.queue_name = none →
      WorkflowEngine.process_new_study w study priority freshId now = .ok w) := by
  refine ⟨?_, ?_, ?_⟩
  · intro rid cur hass hcur hnn
    refine ⟨assignedResultEngine w study priority freshId now rid, ?_, ?_, ?_,
      ?_⟩
    · unfold WorkflowEngine.process_new_study assignedResultEngine
      dsimp only
      rw [hroute]
      dsimp only
      rw [hass]
      dsimp only
      unfold WorkListManager.create_work_item
      dsimp only
    · unfold assignedResultEngine WorkListManager.create_work_item
      dsimp only
      rw [insertId_append_of_none _ _ _ hfresh]
    · unfold assignedResultEngine RoutingEngine.update_workload
      dsimp only
      rw [lookupId_adjustId_self, hcur]
      dsimp only [Option.map]
      congr 1
      omega
    · intro rid' hne
      unfold assignedResultEngine RoutingEngine.update_workload
      dsimp only
      rw [lookupId_adjustId_ne _ _ _ hne]
  · intro q hass hq
    refine ⟨queuedResultEngine w study priority freshId now q, ?_, ?_, ?_⟩
    · unfold WorkflowEngine.process_new_study queuedResultEngine
      dsimp only
      rw [hroute]
      dsimp only
      rw [hass, hq]
      dsimp only
      unfold WorkListManager.create_work_item
      dsimp only
    · unfold queuedResultEngine WorkListManager.create_work_item
      dsimp only
      rw [insertId_append_of_none _ _ _ hfresh]
    · rfl
  · intro hass hq
    unfold WorkflowEngine.process_new_study
    dsimp only
    rw [hroute]
    dsimp only
    rw [hass, hq]

/-- C3 counterexample: with a matching rule whose assign-to-specialty action
finds no eligible reviewer, routing yields neither an assignee nor a queue
name and `process_new_study` creates *zero* work items (the claim demands
exactly one). -/
theorem c3_no_item_when_specialty_finds_no_reviewer :
    (WorkflowEngine.process_new_study c3Engine c3Study .Emergency 77 0 =
      .ok c3Engine) ∧
    c3Engine.worklist_manager.work_items = [] ∧
    c3Engine.routing_engine.route_study
        { study := c3Study, priority := .Emergency } =
      .ok { study_id := 9, assigned_to := none, queue_name := none
            priority := .Emergency, rule_applied := some 50
            reason := "Assigned to specialty Neuroradiology by rule neuro" } := by
  refine ⟨by decide, by decide, by decide⟩

/-- C3 witness: with an available Neuroradiology reviewer on the roster, the
same rule assigns the study, one work item is created for them, and their
workload rises from 0 to 1. -/
theorem c3_process_new_study_witness :
    ∃ w', WorkflowEngine.process_new_study c3EngineStaffed c3Study .Emergency
        77 0 = .ok w' ∧
      w'.worklist_manager.work_items =
        c3EngineStaffed.worklist_manager.work_items ++
          [(77,
            { id := 77, study_id := c3Study.id, radiologist_id := some 11
              status := .Pending
              priority := WorkflowEngine.map_priority_to_worklist .Emergency
              assigned_at := 0, due_at := none
              estimated_duration_minutes := 30
              tags := [c3Study.modality] })] ∧
      lookupId 11 w'.routing_engine.workload_map = some (0 + 1) ∧
      (∀ rid', rid' ≠ 11 →
        lookupId rid' w'.routing_engine.workload_map =
          lookupId rid' c3EngineStaffed.routing_engine.workload_map) :=
  (c3_process_new_study_cases c3EngineStaffed c3Study .Emergency 77 0
    { study_id := 9, assigned_to := some 11, queue_name := none
      priority := .Emergency, rule_applied := some 50
      reason := "Assigned to specialty Neuroradiology by rule neuro" }
    (by decide) (by decide)).1 11 0 (by decide) (by decide) (by decide)

/- ----------------------------------------------------------------
C10 — system overview.
---------------------------------------------------------------- -/

theorem not_any_eq_all_not {α : Type} (p : α → Bool) :
    ∀ l : List α, (!l.any p) = l.all (fun x => !p x) := by
  intro l
  induction l with
  | nil => rfl
  | cons a as ih => simp [List.any_cons, List.all_cons, Bool.not_or, ih]

theorem get_all_active_eq (m : WorkListManager) :
    WorkListManager.get_all_active_work_items m =
      (m.work_items.map (·.snd)).filter (fun i =>
        i.status == .Pending || i.status == .InProgress) := by
  unfold WorkListManager.get_all_active_work_items
  congr 1
  funext i
  cases i.status <;> rfl

theorem get_unack_eq (s : CriticalValueProcessor) :
    CriticalValueProcessor.get_unacknowledged_events s =
      (s.events.map (·.snd)).filter (fun ev =>
        match lookupId ev.id s.notifications with
        | some records => records.all (fun n => !(n.status == .Acknowledged))
        | none => true) := by
  unfold CriticalValueProcessor.get_unacknowledged_events
  congr 1
  funext ev
  cases lookupId ev.id s.notifications with
  | none => rfl
  | some records => exact not_any_eq_all_not _ records

/-- C10 (amended): `get_system_overview` reports the active work item count,
the count of events with no acknowledged notification, the available
reviewer count, and a system load equal to the sum — *over active work
items* — of the assigned reviewer's recorded workload (0 for unassigned
items) divided by the aggregate max workload of the available reviewers
(1 when no reviewer is available or the aggregate capacity is zero).  The
numerator is per-item, not the per-reviewer workload sum the claim states. -/
theorem c10_overview_characterization (w : WorkflowEngine) :
    (WorkflowEngine.get_system_overview w).total_active_work_items =
      (activeItemsSpec w).length ∧
    (WorkflowEngine.get_system_overview w).total_unacknowledged_critical_values =
      (unackSpec w).length ∧
    (WorkflowEngine.get_system_overview w).available_radiologists_count =
      (availableSpec w).length ∧
    (WorkflowEngine.get_system_overview w).system_load =
      (if (availableSpec w).isEmpty ∨ capacitySpec w = 0 then (1 : ℚ)
       else (perItemWorkloadSum w : ℚ) / (capacitySpec w : ℚ)) := by
  unfold WorkflowEngine.get_system_overview
  dsimp only
  refine ⟨?_, ?_, ?_, ?_⟩
  · rw [get_all_active_eq]
    rfl
  · rw [get_unack_eq]
    rfl
  · rfl
  · unfold WorkflowEngine.calculate_system_load
    rw [get_all_active_eq]
    have havail : w.routing_engine.get_available_radiologists =
      availableSpec w := rfl
    rw [havail]
    by_cases h1 : (availableSpec w).isEmpty <;>
      by_cases h2 : capacitySpec w = 0 <;>
        [skip; skip; skip; skip] <;>
      · simp only [capacitySpec] at h2
        simp [h1, h2, capacitySpec, perItemWorkloadSum, activeItemsSpec,
          RoutingEngine.get_workload]

/-- C10 counterexample: one available reviewer (max workload 10, recorded
workload 2) with *two* active work items assigned to them.  The code sums
the reviewer's workload once per active item, reporting a load of 4/10,
while the claim's ratio — sum of workloads over available reviewers divided
by sum of max workloads — is 2/10. -/
theorem c10_load_counts_per_item :
    (WorkflowEngine.get_system_overview c10Engine).system_load = 2 / 5 ∧
    claimSystemLoad c10Engine = 1 / 5 ∧
    ((2 : ℚ) / 5 ≠ 1 / 5) := by
  have h1 : c10Engine.routing_engine.get_available_radiologists =
      [c10Radiologist] := by decide
  have hcap : ((([c10Radiologist] :
      List Radiologist).map (·.max_workload)).sum : Int) = 10 := by decide
  refine ⟨?_, ?_, by norm_num⟩
  · have h3 : ((c10Engine.worklist_manager.get_all_active_work_items).map
        (fun item =>
          match item.radiologist_id with
          | some radiologist_id =>
              c10Engine.routing_engine.get_workload radiologist_id
          | none => 0)).sum = (4 : Int) := by decide
    unfold WorkflowEngine.get_system_overview
    dsimp only
    unfold WorkflowEngine.calculate_system_load
    rw [h1]
    rw [show ([c10Radiologist] : List Radiologist).isEmpty = false from rfl]
    dsimp only
    rw [hcap, h3]
    norm_num
  · have h4 : ((([c10Radiologist] : List Radiologist).map
        (fun r => c10Engine.routing_engine.get_workload r.id)).sum : Int) =
          2 := by decide
    unfold claimSystemLoad
    rw [h1]
    norm_num [hcap, h4,
      show c10Engine.routing_engine.get_workload c10Radiologist.id = 2 by decide,
      show c10Radiologist.max_workload = 10 from rfl]

end Pacs
